import Mathlib

/-!
# Verification of the Butter & Crumble preorder bot (src/main.py)

Shallow embedding of `src/main.py`.  The script drives a browser through
Playwright; we model every Playwright primitive the script calls as an
environment-supplied response of type `Except PyErr _` (a raised Python
exception becomes `.error`, a normal return becomes `.ok`).  Side effects
(clicks, sleeps, navigation, closing the browser) are recorded in an
explicit trace of `BotAct` actions, so the theorems can speak about what
the script did and in which order.  Machine integers of the script are
`Int` (Python integers are unbounded).  All definitions are computable and
total; the bounded polling loop of `find_and_click_checkout_button` is
compiled to structural recursion on its computed attempt budget
`(timeout_seconds * 1000) // retry_interval_ms`, exactly the count of
iterations the Python `while attempts < max_attempts` loop performs.
-/

/-- A Python exception, as coarse as the script distinguishes them:
`PlaywrightTimeoutError` is caught separately (main.py lines 101, 180, 263),
every other exception is handled by a bare `except Exception`. -/
inductive PyErr where
  | timeoutErr : PyErr
  | otherErr : PyErr
deriving DecidableEq, Repr

/-- Observable side effects of the script, recorded in order. -/
inductive BotAct where
  /-- `btn.click(force=True)` on order button `btn` of drop card `card` (main.py line 147). -/
  | clickDropOrderBtn (card btn : Nat)
  /-- click on the order button found by text inside drop card `card` (line 161). -/
  | clickDropOrderByText (card : Nat)
  /-- `card.click()` on drop card `card` (line 169). -/
  | clickDropCard (card : Nat)
  /-- `button.click(force=True)` on product button `idx` (line 252). -/
  | clickProductBtn (idx : Nat)
  /-- `page.query_selector_all(...)` executed at polling attempt `attempt` (line 294). -/
  | checkoutQuery (attempt : Nat)
  /-- `button.click(force=True)` on checkout button `idx` at attempt `attempt` (line 314). -/
  | clickCheckoutBtn (attempt idx : Nat)
  /-- `page.wait_for_timeout(ms)`. -/
  | sleep (ms : Int)
  /-- `page.goto(url)` attempted (line 372). -/
  | stepGoto
  /-- `find_and_click_drop_card` called (line 376). -/
  | stepDrop
  /-- `find_and_click_product` called (line 384). -/
  | stepProduct
  /-- `find_and_click_checkout_button` called (line 392). -/
  | stepCheckout
  /-- `browser.close()` (line 418). -/
  | browserClose
deriving DecidableEq, Repr

/-! ## Python string primitives used by the script -/

/-- ASCII lower-casing of one character, as Python `str.lower` acts on the
ASCII strings this script compares. -/
def pyCharLower (c : Char) : Char :=
  if 'A' ≤ c && c ≤ 'Z' then Char.ofNat (c.toNat + 32) else c

/-- Python `str.lower()` (ASCII fragment). -/
def pyLower (s : String) : String := String.mk (s.data.map pyCharLower)

/-- Is the first list a prefix of the second? -/
def pyPrefixL : List Char → List Char → Bool
  | [], _ => true
  | _ :: _, [] => false
  | a :: t, b :: u => a == b && pyPrefixL t u

/-- Does `needle` occur as a contiguous run inside the second list?
This is Python `needle in hay` on strings. -/
def pyContainsL (needle : List Char) : List Char → Bool
  | [] => needle.isEmpty
  | b :: u => pyPrefixL needle (b :: u) || pyContainsL needle u

/-- Python `needle in hay` on strings. -/
def pyContains (hay needle : String) : Bool := pyContainsL needle.data hay.data

/-- The whitespace characters Python `str.strip` removes (ASCII fragment). -/
def pyIsSpace (c : Char) : Bool :=
  c == ' ' || c == '\t' || c == '\n' || c == '\r' || c == '\x0b' || c == '\x0c'

/-- Python `str.strip()` on the character list. -/
def pyStripL (s : List Char) : List Char :=
  ((s.dropWhile pyIsSpace).reverse.dropWhile pyIsSpace).reverse

/-- Python `s.replace(old, new)` for nonempty `old`: replace every
non-overlapping occurrence, scanning left to right. -/
def pyReplaceL (old new : List Char) (s : List Char) : List Char :=
  match s with
  | [] => []
  | a :: t =>
    if old ≠ [] ∧ pyPrefixL old (a :: t) = true then
      new ++ pyReplaceL old new (List.drop (old.length - 1) t)
    else
      a :: pyReplaceL old new t
termination_by s.length
decreasing_by
  · simp only [List.length_drop, List.length_cons]
    omega
  · simp only [List.length_cons]
    omega

/-- Python `s.replace(old, new)` on strings (for nonempty `old`). -/
def pyReplace (s old new : String) : String :=
  String.mk (pyReplaceL old.data new.data s.data)

/-- Python `str.strip()` on strings. -/
def pyStrip (s : String) : String := String.mk (pyStripL s.data)

/-! ## Python `int()` -/

/-- Decimal value of an ASCII digit. -/
def digitVal (c : Char) : Nat := c.toNat - '0'.toNat

/-- After an initial digit, Python `int()` accepts further digits with single
underscores allowed only between digits.  Returns the remaining digits with
the underscores removed, or `none` if the shape is invalid. -/
def digitsURest : List Char → Option (List Char)
  | [] => some []
  | '_' :: c :: t => if c.isDigit then (digitsURest t).map (c :: ·) else none
  | ['_'] => none
  | c :: t => if c.isDigit then (digitsURest t).map (c :: ·) else none

/-- Value of a digit list, most significant first. -/
def digitsVal (ds : List Char) : Nat := ds.foldl (fun a c => 10 * a + digitVal c) 0

/-- Python `int(s)`: strip whitespace, optional sign, then digits with
optional single underscores between digits; raises `ValueError` otherwise. -/
def pyInt (s : String) : Except PyErr Int :=
  let cs := pyStripL s.data
  let signed : Int × List Char :=
    match cs with
    | '+' :: t => (1, t)
    | '-' :: t => (-1, t)
    | _ => (1, cs)
  match signed.2 with
  | [] => .error .otherErr
  | c :: t =>
    if c.isDigit then
      match digitsURest t with
      | some rest => .ok (signed.1 * (digitsVal (c :: rest) : Int))
      | none => .error .otherErr
    else .error .otherErr

/-! ## `load_config` (main.py lines 26-38) -/

/-- The configuration dict built by `load_config`.  `retry_interval_ms` and
`timeout_seconds` are produced by Python `int(...)`, hence integers. -/
structure BotConfig where
  url : String
  headless : Bool
  retry_interval_ms : Int
  timeout_seconds : Int
deriving DecidableEq, Repr

/-- An environment: the process environment after `load_dotenv()` has run
(line 28); `os.getenv` returns `none` for an unset variable. -/
def Env : Type := String → Option String

/-- `load_config` (lines 26-38).  `os.getenv(name, default)` is
`(env name).getD default`; the `int(...)` conversions can raise, which
propagates out of `load_config` (there is no handler around them). -/
def load_config (env : Env) : Except PyErr BotConfig :=
  match pyInt ((env "RETRY_INTERVAL_MS").getD "500") with
  | .error e => .error e
  | .ok r =>
    match pyInt ((env "TIMEOUT_SECONDS").getD "30") with
    | .error e => .error e
    | .ok t =>
      .ok { url := (env "HOTPLATE_URL").getD "https://www.hotplate.com/butterandcrumble",
            headless := pyLower ((env "HEADLESS").getD "true") == "true",
            retry_interval_ms := r,
            timeout_seconds := t }

/-! ## `parse_drop_date` (main.py lines 41-58)

`datetime.strptime(date_part, "%B %d, %Y")` is modelled after CPython
`_strptime`: the format compiles to the anchored regular expression
`(month name alternation)\s+(3[01]|[12]\d|0[1-9]|[1-9]),\s+(\d\d\d\d)`
matched case-insensitively against the whole string, after which
`datetime(year, month, day)` validates the calendar date (raising
`ValueError` for day > days-in-month or year 0, both caught by
`parse_drop_date` and turned into `None`). -/

/-- The date produced by a successful `datetime.strptime` call (the time
components are all zero and never inspected by the script). -/
structure PyDate where
  year : Nat
  month : Nat
  day : Nat
deriving DecidableEq, Repr

/-- English month names, in month order, as the C locale supplies them. -/
def monthNames : List String :=
  ["January", "February", "March", "April", "May", "June",
   "July", "August", "September", "October", "November", "December"]

/-- Case-insensitive match of one of `names` at the head of `cs`; returns the
1-based position of the name and the rest of the input.  No month name is a
prefix of another, so the alternation order is irrelevant. -/
def matchMonthAux : List String → Nat → List Char → Option (Nat × List Char)
  | [], _, _ => none
  | n :: rest, i, cs =>
    if pyPrefixL (n.data.map pyCharLower) (cs.map pyCharLower) then
      some (i + 1, cs.drop n.length)
    else
      matchMonthAux rest (i + 1) cs

/-- `\s+`: at least one whitespace character, consumed greedily. -/
def skipSpaces1 (cs : List Char) : Option (List Char) :=
  match cs with
  | c :: t => if pyIsSpace c then some (t.dropWhile pyIsSpace) else none
  | [] => none

/-- `,\s+(\d\d\d\d)` followed by end of input: the year. -/
def parseYearTail (cs : List Char) : Option Nat :=
  match cs with
  | ',' :: t =>
    match skipSpaces1 t with
    | some (a :: b :: c :: [d]) =>
      if a.isDigit && b.isDigit && c.isDigit && d.isDigit then
        some (1000 * digitVal a + 100 * digitVal b + 10 * digitVal c + digitVal d)
      else none
    | _ => none
  | _ => none

/-- Day-of-month `(3[01]|[12]\d|0[1-9]|[1-9])` then the year tail.  The
two-digit alternatives (exactly the two-digit numerals 01-31) are tried
first; on failure of the rest of the pattern the regex engine backtracks to
the one-digit alternative `[1-9]`. -/
def parseDayYear (cs : List Char) : Option (Nat × Nat) :=
  match cs with
  | d1 :: d2 :: rest =>
    if d1.isDigit && d2.isDigit &&
        decide (1 ≤ 10 * digitVal d1 + digitVal d2) &&
        decide (10 * digitVal d1 + digitVal d2 ≤ 31) then
      match parseYearTail rest with
      | some y => some (10 * digitVal d1 + digitVal d2, y)
      | none =>
        if d1.isDigit && d1 != '0' then
          (parseYearTail (d2 :: rest)).map (fun y => (digitVal d1, y))
        else none
    else
      if d1.isDigit && d1 != '0' then
        (parseYearTail (d2 :: rest)).map (fun y => (digitVal d1, y))
      else none
  | [d1] =>
    if d1.isDigit && d1 != '0' then
      (parseYearTail []).map (fun y => (digitVal d1, y))
    else none
  | [] => none

/-- Gregorian leap year, as `datetime` computes it. -/
def isLeapYear (y : Nat) : Bool := y % 4 == 0 && (y % 100 != 0 || y % 400 == 0)

/-- Days in a month, as `datetime` validates the day. -/
def daysInMonth (y m : Nat) : Nat :=
  if m == 2 then (if isLeapYear y then 29 else 28)
  else if m == 4 || m == 6 || m == 9 || m == 11 then 30
  else 31

/-- `datetime.strptime(s, "%B %d, %Y")`, returning `none` where CPython
raises `ValueError`. -/
def strptimeBDY (s : String) : Option PyDate :=
  match matchMonthAux monthNames 0 s.data with
  | none => none
  | some (m, r1) =>
    match skipSpaces1 r1 with
    | none => none
    | some r2 =>
      match parseDayYear r2 with
      | none => none
      | some (d, y) =>
        if 1 ≤ y && d ≤ daysInMonth y m then some ⟨y, m, d⟩ else none

/-- `parse_drop_date` (lines 41-58): if `"Dropped on" in date_text`, strip
all occurrences of `"Dropped on "`, strip whitespace and parse with
`strptime`; any exception is caught and `None` is returned, so the function
is total. -/
def parse_drop_date (date_text : String) : Option PyDate :=
  if pyContains date_text "Dropped on" then
    strptimeBDY (pyStrip (pyReplace date_text "Dropped on " ""))
  else none

/-! ## `find_and_click_drop_card` (main.py lines 61-185)

The DOM is modelled as the environment's responses to exactly the queries
the function performs.  An element handle carries the outcomes of the
methods the script calls on it. -/

deriving instance DecidableEq for Except

/-- An element on which only `inner_text()` is called. -/
structure TextEl where
  innerText : Except PyErr String
deriving DecidableEq, Repr

/-- An element on which only `is_visible()` is called. -/
structure VisEl where
  isVisible : Except PyErr Bool
deriving DecidableEq, Repr

/-- A clickable element: `inner_text()`, `scroll_into_view_if_needed()`,
`click(...)`. -/
structure BtnEl where
  innerText : Except PyErr String
  scrollIntoView : Except PyErr Unit
  click : Except PyErr Unit
deriving DecidableEq, Repr

/-- One drop card, with the responses to the queries of lines 114-169:
`query_selector('h2')`, `query_selector_all('div:has-text("Sold Out")')`,
`query_selector_all('div[class*="c-bYwOQu"]')`,
`query_selector('div:has-text("Click to order")')`, and the card's own
scroll and click. -/
structure DropCard where
  h2 : Option TextEl
  soldOutEls : List VisEl
  orderButtons : List BtnEl
  orderBtnByText : Option BtnEl
  scrollIntoView : Except PyErr Unit
  click : Except PyErr Unit
deriving DecidableEq, Repr

/-- The storefront page as `find_and_click_drop_card` interrogates it.
`waitForSelector i` / `querySelectorAll i` are the responses for the i-th
entry of `selectors_to_try` (lines 88-92).  `page.wait_for_timeout` is a
plain sleep and is modelled as always succeeding. -/
structure DropPage where
  waitForLoadState : Except PyErr Unit
  screenshot : Except PyErr Unit
  waitForSelector : Nat → Except PyErr Unit
  querySelectorAll : Nat → List DropCard

/-- Lines 94-103: try the three selectors in order; a
`PlaywrightTimeoutError` from `wait_for_selector` moves to the next
selector, any other exception propagates to the outer handler; the first
selector whose query returns a nonempty list wins. -/
def findDropCardsAux (pg : DropPage) : List Nat → Except PyErr (List DropCard)
  | [] => .ok []
  | i :: rest =>
    match pg.waitForSelector i with
    | .error .timeoutErr => findDropCardsAux pg rest
    | .error e => .error e
    | .ok _ =>
      let cards := pg.querySelectorAll i
      if cards.isEmpty then findDropCardsAux pg rest else .ok cards

/-- The `drop_cards` list after the selector loop (lines 85-103). -/
def findDropCards (pg : DropPage) : Except PyErr (List DropCard) :=
  findDropCardsAux pg [0, 1, 2]

/-- Lines 127-128: `any(elem.is_visible() for elem in sold_out_elements)`,
short-circuiting, with exceptions propagating to the card-level handler. -/
def checkSoldOut : List VisEl → Except PyErr Bool
  | [] => .ok false
  | e :: rest =>
    match e.isVisible with
    | .error err => .error err
    | .ok true => .ok true
    | .ok false => checkSoldOut rest

/-- Strategy 1 (lines 140-150): scan the order buttons of card `cardIdx`;
click the first whose text contains `"Click to order"` or (lower-cased)
`"order"`.  Returns the performed actions and either `true` (clicked),
`false` (no button matched) or a raised exception. -/
def tryOrderButtons (cardIdx : Nat) : List BtnEl → Nat → List BotAct × Except PyErr Bool
  | [], _ => ([], .ok false)
  | btn :: rest, bIdx =>
    match btn.innerText with
    | .error e => ([], .error e)
    | .ok t =>
      if pyContains t "Click to order" || pyContains (pyLower t) "order" then
        match btn.scrollIntoView with
        | .error e => ([], .error e)
        | .ok _ =>
          match btn.click with
          | .error e => ([.sleep 500], .error e)
          | .ok _ => ([.sleep 500, .clickDropOrderBtn cardIdx bIdx], .ok true)
      else tryOrderButtons cardIdx rest (bIdx + 1)

/-- The body of the card loop (lines 111-175) for one card.  The second
component is `true` when the card's branch executed `return True`; the
card-level `except Exception: continue` (lines 173-175) makes every
exception a `continue`, so no error escapes. -/
def processDropCard (title_search : String) (cardIdx : Nat) (card : DropCard) :
    List BotAct × Bool :=
  match card.h2 with
  | none => ([], false)
  | some tEl =>
    match tEl.innerText with
    | .error _ => ([], false)
    | .ok title =>
      if pyContains (pyLower title) (pyLower title_search) then
        match checkSoldOut card.soldOutEls with
        | .error _ => ([], false)
        | .ok _ =>
          match tryOrderButtons cardIdx card.orderButtons 0 with
          | (tr, .error _) => (tr, false)
          | (tr, .ok true) => (tr, true)
          | (tr, .ok false) =>
            match card.orderBtnByText with
            | some btn =>
              match btn.scrollIntoView with
              | .error _ => (tr, false)
              | .ok _ =>
                match btn.click with
                | .error _ => (tr ++ [.sleep 500], false)
                | .ok _ => (tr ++ [.sleep 500, .clickDropOrderByText cardIdx], true)
            | none =>
              match card.scrollIntoView with
              | .error _ => (tr, false)
              | .ok _ =>
                match card.click with
                | .error _ => (tr ++ [.sleep 500], false)
                | .ok _ => (tr ++ [.sleep 500, .clickDropCard cardIdx], true)
      else ([], false)

/-- The card loop itself (line 111): first card whose processing returned
`True` wins; otherwise fall through to `return False` (line 178). -/
def dropCardLoop (title_search : String) : List DropCard → Nat → List BotAct × Bool
  | [], _ => ([], false)
  | c :: rest, idx =>
    match processDropCard title_search idx c with
    | (tr, true) => (tr, true)
    | (tr, false) =>
      let r := dropCardLoop title_search rest (idx + 1)
      (tr ++ r.1, r.2)

/-- Lines 72-178: the body of the outer `try`.  Errors in the preamble or a
non-timeout error from the selector loop propagate to the handlers of lines
180-185. -/
def dropCardBody (pg : DropPage) (title_search : String) :
    List BotAct × Except PyErr Bool :=
  match pg.waitForLoadState with
  | .error e => ([], .error e)
  | .ok _ =>
    match pg.screenshot with
    | .error e => ([], .error e)
    | .ok _ =>
      match findDropCards pg with
      | .error e => ([], .error e)
      | .ok cards =>
        if cards.isEmpty then ([], .ok false)
        else
          let r := dropCardLoop title_search cards 0
          (r.1, .ok r.2)

/-- `find_and_click_drop_card` (lines 61-185): the outer handlers convert
any raised exception into `False`. -/
def find_and_click_drop_card (pg : DropPage) (title_search : String) :
    List BotAct × Bool :=
  match dropCardBody pg title_search with
  | (tr, .ok b) => (tr, b)
  | (tr, .error _) => (tr, false)

/-- Default `title_search` of `find_and_click_drop_card`, also the value
passed at the call site (lines 61, 376). -/
def defaultTitleSearch : String := "Thurs - Sun"

/-! ## `find_and_click_product` (main.py lines 188-268) -/

/-- An element on which only `get_attribute('data-status')` is called. -/
structure AttrEl where
  getAttribute : Except PyErr (Option String)
deriving DecidableEq, Repr

/-- One product button (`button.c-ietuGy`), with the responses to the
queries of lines 221-252. -/
structure ProductBtn where
  h3 : Option TextEl
  priceEl : Option TextEl
  dataStatusEl : Option AttrEl
  soldOutBadge : Option VisEl
  scrollIntoView : Except PyErr Unit
  click : Except PyErr Unit
deriving DecidableEq, Repr

/-- The drop page as `find_and_click_product` interrogates it. -/
structure ProductPage where
  waitForLoadState : Except PyErr Unit
  screenshot : Except PyErr Unit
  waitForSelector : Except PyErr Unit
  buttons : List ProductBtn

/-- Line 230: `price_element.inner_text() if price_element else "N/A"`. -/
def priceOf : Option TextEl → Except PyErr String
  | some el => el.innerText
  | none => .ok "N/A"

/-- Line 234: `data_status.get_attribute('data-status') if data_status else
"unknown"`. -/
def statusOf : Option AttrEl → Except PyErr (Option String)
  | some el => el.getAttribute
  | none => .ok (some "unknown")

/-- Line 237: `sold_out_badge.is_visible() if sold_out_badge else False`. -/
def soldOutOf : Option VisEl → Except PyErr Bool
  | some el => el.isVisible
  | none => .ok false

/-- The body of the product loop (lines 218-258) for one button; the
button-level `except Exception: continue` (lines 256-258) turns every
exception into a `continue`. -/
def processProductBtn (product_name : String) (idx : Nat) (b : ProductBtn) :
    List BotAct × Bool :=
  match b.h3 with
  | none => ([], false)
  | some tEl =>
    match tEl.innerText with
    | .error _ => ([], false)
    | .ok title =>
      match priceOf b.priceEl with
      | .error _ => ([], false)
      | .ok _ =>
        match statusOf b.dataStatusEl with
        | .error _ => ([], false)
        | .ok _ =>
          match soldOutOf b.soldOutBadge with
          | .error _ => ([], false)
          | .ok _ =>
            if pyContains (pyLower title) (pyLower product_name) then
              match b.scrollIntoView with
              | .error _ => ([], false)
              | .ok _ =>
                match b.click with
                | .error _ => ([.sleep 500], false)
                | .ok _ => ([.sleep 500, .clickProductBtn idx], true)
            else ([], false)

/-- The product loop (line 218). -/
def productLoop (product_name : String) : List ProductBtn → Nat → List BotAct × Bool
  | [], _ => ([], false)
  | b :: rest, idx =>
    match processProductBtn product_name idx b with
    | (tr, true) => (tr, true)
    | (tr, false) =>
      let r := productLoop product_name rest (idx + 1)
      (tr ++ r.1, r.2)

/-- Lines 199-261: the body of the outer `try`; errors from the preamble
(including the `wait_for_selector` timeout of line 212) propagate to the
handlers of lines 263-268. -/
def productBody (pg : ProductPage) (product_name : String) :
    List BotAct × Except PyErr Bool :=
  match pg.waitForLoadState with
  | .error e => ([], .error e)
  | .ok _ =>
    match pg.screenshot with
    | .error e => ([], .error e)
    | .ok _ =>
      match pg.waitForSelector with
      | .error e => ([], .error e)
      | .ok _ =>
        let r := productLoop product_name pg.buttons 0
        (r.1, .ok r.2)

/-- `find_and_click_product` (lines 188-268): both handlers (timeout and
generic) convert the exception into `False`. -/
def find_and_click_product (pg : ProductPage) (product_name : String) :
    List BotAct × Bool :=
  match productBody pg product_name with
  | (tr, .ok b) => (tr, b)
  | (tr, .error _) => (tr, false)

/-- Default `product_name`, also the value passed at the call site
(lines 188, 384). -/
def defaultProductName : String := "Small Pastry Box"

/-! ## `find_and_click_checkout_button` (main.py lines 271-336) -/

/-- One checkout button
(`button.c-bYwOQu.c-bYwOQu-dWXYMB-size-large`): the `p.c-PJLV` text
elements, `is_disabled()`, scroll and click (lines 297-314). -/
structure CheckoutBtn where
  textEls : List TextEl
  isDisabled : Except PyErr Bool
  scrollIntoView : Except PyErr Unit
  click : Except PyErr Unit
deriving DecidableEq, Repr

/-- The product page as the polling loop interrogates it: `query k` is the
response of `page.query_selector_all(...)` during the iteration with
`attempts = k` (the page changes over time, hence the index). -/
structure CheckoutPage where
  query : Nat → List CheckoutBtn

/-- Line 300: `[elem.inner_text() for elem in button_text_elements]`,
with exceptions propagating to the attempt-level handler. -/
def textsOf : List TextEl → Except PyErr (List String)
  | [] => .ok []
  | e :: rest =>
    match e.innerText with
    | .error err => .error err
    | .ok s =>
      match textsOf rest with
      | .error err => .error err
      | .ok l => .ok (s :: l)

/-- The button scan of one polling iteration (lines 297-319) with
`attempts = k`: read each button's texts and disabled state; on the first
enabled button scroll, sleep 300ms and click (`return True`).  Disabled
buttons are only logged.  Exceptions propagate to the handler of
lines 326-329. -/
def checkoutScan (k : Nat) : List CheckoutBtn → Nat → List BotAct × Except PyErr Bool
  | [], _ => ([], .ok false)
  | b :: rest, idx =>
    match textsOf b.textEls with
    | .error e => ([], .error e)
    | .ok _ =>
      match b.isDisabled with
      | .error e => ([], .error e)
      | .ok false =>
        match b.scrollIntoView with
        | .error e => ([], .error e)
        | .ok _ =>
          match b.click with
          | .error e => ([.sleep 300], .error e)
          | .ok _ => ([.sleep 300, .clickCheckoutBtn k idx], .ok true)
      | .ok true => checkoutScan k rest (idx + 1)

/-- The `while attempts < max_attempts` loop (lines 291-329), compiled to
structural recursion on the remaining budget
`fuel = max_attempts - attempts` (the loop guard `attempts < max_attempts`
is `fuel > 0`, and the guard of line 323, `attempts + 1 < max_attempts`
after the increment, is `fuel - 1 > 0`).  `attempts` is threaded through so
the trace names the iteration.  On a normal iteration without an enabled
button the loop sleeps `retry` ms only when another attempt remains
(lines 322-324); on an exception it increments and sleeps unconditionally
(lines 326-329). -/
def checkoutLoop (pg : CheckoutPage) (retry : Int) : Nat → Nat → List BotAct × Bool
  | _, 0 => ([], false)
  | attempts, fuel + 1 =>
    match checkoutScan attempts (pg.query attempts) 0 with
    | (tr, .ok true) => (.checkoutQuery attempts :: tr, true)
    | (tr, .ok false) =>
      if fuel = 0 then (.checkoutQuery attempts :: tr, false)
      else
        let r := checkoutLoop pg retry (attempts + 1) fuel
        (.checkoutQuery attempts :: tr ++ .sleep retry :: r.1, r.2)
    | (tr, .error _) =>
      let r := checkoutLoop pg retry (attempts + 1) fuel
      (.checkoutQuery attempts :: tr ++ .sleep retry :: r.1, r.2)

/-- Python `//` on integers: floor division, raising `ZeroDivisionError`
for divisor 0. -/
def pyFloorDiv (a b : Int) : Except PyErr Int :=
  if b = 0 then .error .otherErr else .ok (Int.fdiv a b)

/-- Lines 284-332: the body of the outer `try`.  `max_attempts =
(timeout_seconds * 1000) // retry_interval_ms` (line 288) can raise
`ZeroDivisionError`, which propagates to the handler of lines 334-336;
the loop runs `max(0, max_attempts)` iterations, i.e. `max_attempts.toNat`. -/
def checkoutBody (pg : CheckoutPage) (retry_interval_ms timeout_seconds : Int) :
    List BotAct × Except PyErr Bool :=
  match pyFloorDiv (timeout_seconds * 1000) retry_interval_ms with
  | .error e => ([], .error e)
  | .ok maxAttempts =>
    let r := checkoutLoop pg retry_interval_ms 0 maxAttempts.toNat
    (r.1, .ok r.2)

/-- `find_and_click_checkout_button` (lines 271-336): the outer handler
converts any raised exception into `False`. -/
def find_and_click_checkout_button (pg : CheckoutPage)
    (retry_interval_ms timeout_seconds : Int) : List BotAct × Bool :=
  match checkoutBody pg retry_interval_ms timeout_seconds with
  | (tr, .ok b) => (tr, b)
  | (tr, .error _) => (tr, false)

/-! ## `run_bot` (main.py lines 339-423) -/

/-- The whole environment `run_bot` runs against: the process environment
for `load_config`, the outcome of the browser setup (launch, context,
init script, new page; lines 346-368, executed before the `try`), the
outcome of `page.goto` (line 372), and the three page views consumed by
the click functions. -/
structure World where
  env : Env
  setup : Except PyErr Unit
  goto : Except PyErr Unit
  dropPage : DropPage
  productPage : ProductPage
  checkoutPage : CheckoutPage

/-- Lines 389-403: the checkout step, reached only after the product was
clicked: sleep 2000ms, call `find_and_click_checkout_button` with the
configured interval and timeout, and on success sleep 3000ms more. -/
def runBotCheckoutStep (w : World) (cfg : BotConfig) : List BotAct :=
  let r := find_and_click_checkout_button w.checkoutPage
      cfg.retry_interval_ms cfg.timeout_seconds
  if r.2 then .sleep 2000 :: .stepCheckout :: r.1 ++ [.sleep 3000]
  else .sleep 2000 :: .stepCheckout :: r.1

/-- Lines 381-405: the product step, reached only after the drop card was
clicked: sleep 3000ms, call `find_and_click_product`, and on success go on
to the checkout step. -/
def runBotProductStep (w : World) (cfg : BotConfig) : List BotAct :=
  let r := find_and_click_product w.productPage defaultProductName
  if r.2 then .sleep 3000 :: .stepProduct :: r.1 ++ runBotCheckoutStep w cfg
  else .sleep 3000 :: .stepProduct :: r.1

/-- Lines 370-412: the body of the `try`.  `page.goto` may raise, which
reaches the handler of line 414; the three click functions return booleans
and never raise.  Lines 410-412: in headed mode a final 10s sleep. -/
def runBotTry (w : World) (cfg : BotConfig) : List BotAct × Except PyErr Unit :=
  match w.goto with
  | .error e => ([.stepGoto], .error e)
  | .ok _ =>
    let r1 := find_and_click_drop_card w.dropPage defaultTitleSearch
    let tr :=
      if r1.2 then .stepGoto :: .stepDrop :: r1.1 ++ runBotProductStep w cfg
      else .stepGoto :: .stepDrop :: r1.1
    (if cfg.headless then tr else tr ++ [.sleep 10000], .ok ())

/-- `run_bot` (lines 339-423).  `load_config` runs before the browser is
launched and its exceptions propagate; so do exceptions of the setup block
(lines 346-368).  The `try`/`except`/`finally` of lines 370-419 swallows
every exception of its body and always runs `browser.close()`. -/
def run_bot (w : World) : List BotAct × Except PyErr Unit :=
  match load_config w.env with
  | .error e => ([], .error e)
  | .ok cfg =>
    match w.setup with
    | .error e => ([], .error e)
    | .ok _ =>
      let r := runBotTry w cfg
      (r.1 ++ [.browserClose], .ok ())

/-! ## Lemmas about the checkout polling loop -/

/-- Did this call return normally? -/
def exceptOk {α : Type} : Except PyErr α → Bool
  | .ok _ => true
  | .error _ => false

/-- Every method called on this checkout button returns normally. -/
def checkoutBtnOK (b : CheckoutBtn) : Bool :=
  b.textEls.all (fun t => exceptOk t.innerText) && exceptOk b.isDisabled &&
    exceptOk b.scrollIntoView && exceptOk b.click

/-- Every button the page ever returns is well-behaved. -/
def checkoutPageOK (pg : CheckoutPage) : Prop :=
  ∀ k, ∀ b ∈ pg.query k, checkoutBtnOK b = true

/-- Some button of the iteration-`k` query is enabled. -/
def enabledAt (pg : CheckoutPage) (k : Nat) : Prop :=
  ∃ b ∈ pg.query k, b.isDisabled = .ok false

/-- Is this action a polling-iteration marker? -/
def isQueryAct : BotAct → Bool
  | .checkoutQuery _ => true
  | _ => false

theorem exceptOk_iff {α : Type} (e : Except PyErr α) : exceptOk e = true ↔ ∃ x, e = .ok x := by
  cases e <;> simp [exceptOk]

theorem exceptOk_unit {e : Except PyErr Unit} (h : exceptOk e = true) : e = .ok () := by
  cases e with
  | ok x => cases x; rfl
  | error err => simp [exceptOk] at h

theorem textsOf_ok {l : List TextEl} (h : ∀ t ∈ l, exceptOk t.innerText = true) :
    ∃ s, textsOf l = .ok s := by
  induction l with
  | nil => exact ⟨[], rfl⟩
  | cons e rest ih =>
    obtain ⟨x, hx⟩ := (exceptOk_iff _).1 (h e (by simp))
    obtain ⟨s, hs⟩ := ih (fun t ht => h t (by simp [ht]))
    exact ⟨x :: s, by simp [textsOf, hx, hs]⟩

/-- Every action a button scan emits is the 300ms pre-click sleep or a
checkout click of iteration `k`. -/
theorem checkoutScan_acts (k : Nat) (btns : List CheckoutBtn) (i : Nat) :
    ∀ x ∈ (checkoutScan k btns i).1, x = .sleep 300 ∨ ∃ j, x = .clickCheckoutBtn k j := by
  induction btns generalizing i with
  | nil => simp [checkoutScan]
  | cons b rest ih =>
    simp only [checkoutScan]
    cases htx : textsOf b.textEls with
    | error e => simp
    | ok _ =>
      cases hd : b.isDisabled with
      | error e => simp
      | ok d =>
        cases d with
        | true => exact ih (i + 1)
        | false =>
          cases hs : b.scrollIntoView with
          | error e => simp
          | ok u =>
            cases hc : b.click with
            | error e => intro x hx; simp at hx; simp [hx]
            | ok v => intro x hx; simp at hx; rcases hx with h | h <;> simp [h]

/-- A scan that returns `True` has clicked a button of iteration `k`. -/
theorem checkoutScan_click (k : Nat) (btns : List CheckoutBtn) (i : Nat)
    (h : (checkoutScan k btns i).2 = .ok true) :
    ∃ j, BotAct.clickCheckoutBtn k j ∈ (checkoutScan k btns i).1 := by
  induction btns generalizing i with
  | nil => simp [checkoutScan] at h
  | cons b rest ih =>
    simp only [checkoutScan] at h ⊢
    cases htx : textsOf b.textEls with
    | error e => rw [htx] at h; simp at h
    | ok _ =>
      rw [htx] at h
      cases hd : b.isDisabled with
      | error e => rw [hd] at h; simp at h
      | ok d =>
        rw [hd] at h
        cases d with
        | true => exact ih (i + 1) h
        | false =>
          cases hs : b.scrollIntoView with
          | error e => rw [hs] at h; simp at h
          | ok u =>
            rw [hs] at h
            cases hc : b.click with
            | error e => rw [hc] at h; simp at h
            | ok v => refine ⟨i, ?_⟩; simp

/-- On a list of well-behaved buttons the scan never raises, returns `True`
exactly when some button is enabled, and acts not at all otherwise. -/
theorem checkoutScan_ok {btns : List CheckoutBtn}
    (h : ∀ b ∈ btns, checkoutBtnOK b = true) (k i : Nat) :
    (∃ bres, (checkoutScan k btns i).2 = .ok bres)
    ∧ ((checkoutScan k btns i).2 = .ok true ↔ ∃ b ∈ btns, b.isDisabled = .ok false)
    ∧ ((∀ b ∈ btns, ¬ b.isDisabled = .ok false) → checkoutScan k btns i = ([], .ok false)) := by
  induction btns generalizing i with
  | nil => exact ⟨⟨false, rfl⟩, by simp [checkoutScan], fun _ => rfl⟩
  | cons b rest ih =>
    have hb := h b (by simp)
    simp only [checkoutBtnOK, Bool.and_eq_true, List.all_eq_true] at hb
    obtain ⟨⟨⟨htx, hdis⟩, hscr⟩, hclk⟩ := hb
    obtain ⟨s, hs⟩ := textsOf_ok htx
    obtain ⟨d, hd⟩ := (exceptOk_iff _).1 hdis
    have hrest := ih (fun x hx => h x (by simp [hx])) (i + 1)
    simp only [checkoutScan]
    rw [hs, hd]
    cases d with
    | false =>
      rw [exceptOk_unit hscr, exceptOk_unit hclk]
      refine ⟨⟨true, rfl⟩, ?_, ?_⟩
      · constructor
        · intro _
          exact ⟨b, List.mem_cons_self b rest, hd⟩
        · intro _
          rfl
      · intro hnone
        exact absurd hd (hnone b (by simp))
    | true =>
      refine ⟨hrest.1, ?_, ?_⟩
      · rw [hrest.2.1]
        constructor
        · rintro ⟨x, hx, hdx⟩
          exact ⟨x, by simp [hx], hdx⟩
        · rintro ⟨x, hx, hdx⟩
          rcases List.mem_cons.1 hx with rfl | hx
          · rw [hd] at hdx; simp at hdx
          · exact ⟨x, hx, hdx⟩
      · intro hnone
        exact hrest.2.2 (fun x hx => hnone x (by simp [hx]))

/-- On a well-behaved page the loop returns `True` exactly when an
iteration inside its budget sees an enabled button. -/
theorem checkoutLoop_true_iff {pg : CheckoutPage} (hpg : checkoutPageOK pg)
    (retry : Int) (fuel : Nat) : ∀ a : Nat,
    ((checkoutLoop pg retry a fuel).2 = true ↔
      ∃ k, a ≤ k ∧ k < a + fuel ∧ enabledAt pg k) := by
  induction fuel with
  | zero =>
    intro a
    constructor
    · intro h
      exact absurd h (by simp [checkoutLoop])
    · rintro ⟨k, hk1, hk2, _⟩
      omega
  | succ fuel ih =>
    intro a
    obtain ⟨⟨bres, hbres⟩, hiff, _⟩ := checkoutScan_ok (hpg a) a 0
    rcases hsc : checkoutScan a (pg.query a) 0 with ⟨tr, res⟩
    rw [hsc] at hbres hiff
    have hres : res = .ok bres := hbres
    subst hres
    have hiff2 : (Except.ok bres = (Except.ok true : Except PyErr Bool)) ↔ enabledAt pg a := hiff
    simp only [checkoutLoop, hsc]
    cases bres with
    | true =>
      constructor
      · intro _
        exact ⟨a, le_refl a, by omega, hiff2.1 rfl⟩
      · intro _
        rfl
    | false =>
      have hnot : ¬ enabledAt pg a := fun he => by simpa using hiff2.2 he
      cases fuel with
      | zero =>
        constructor
        · intro h
          simp at h
        · rintro ⟨k, hk1, hk2, he⟩
          have : k = a := by omega
          subst this
          exact absurd he hnot
      | succ f =>
        simp only [Nat.succ_ne_zero, if_false]
        constructor
        · intro h
          obtain ⟨k, hk1, hk2, he⟩ := (ih (a + 1)).1 h
          exact ⟨k, by omega, by omega, he⟩
        · rintro ⟨k, hk1, hk2, he⟩
          rcases Nat.lt_or_ge k (a + 1) with hk | hk
          · have : k = a := by omega
            subst this
            exact absurd he hnot
          · exact (ih (a + 1)).2 ⟨k, hk, by omega, he⟩

/-- A loop that returned `True` clicked a button during an iteration inside
its budget. -/
theorem checkoutLoop_click (pg : CheckoutPage) (retry : Int) (fuel : Nat) : ∀ a : Nat,
    (checkoutLoop pg retry a fuel).2 = true →
    ∃ k j, a ≤ k ∧ k < a + fuel ∧
      BotAct.clickCheckoutBtn k j ∈ (checkoutLoop pg retry a fuel).1 := by
  induction fuel with
  | zero =>
    intro a h
    exact absurd h (by simp [checkoutLoop])
  | succ fuel ih =>
    intro a h
    rcases hsc : checkoutScan a (pg.query a) 0 with ⟨tr, res⟩
    simp only [checkoutLoop, hsc] at h ⊢
    cases res with
    | ok b =>
      cases b with
      | true =>
        obtain ⟨j, hj⟩ := checkoutScan_click a (pg.query a) 0 (by rw [hsc])
        rw [hsc] at hj
        exact ⟨a, j, le_refl a, by omega, by simp [hj]⟩
      | false =>
        cases fuel with
        | zero => simp at h
        | succ f =>
          simp only [Nat.succ_ne_zero, if_false] at h ⊢
          obtain ⟨k, j, hk1, hk2, hmem⟩ := ih (a + 1) h
          exact ⟨k, j, by omega, by omega, by simp [hmem]⟩
    | error e =>
      obtain ⟨k, j, hk1, hk2, hmem⟩ := ih (a + 1) h
      exact ⟨k, j, by omega, by omega, by simp [hmem]⟩

/-- A button scan emits no iteration marker. -/
theorem checkoutScan_noQuery (k : Nat) (btns : List CheckoutBtn) (i : Nat) :
    (checkoutScan k btns i).1.countP isQueryAct = 0 := by
  rw [List.countP_eq_zero]
  intro x hx
  rcases checkoutScan_acts k btns i x hx with h | ⟨j, h⟩ <;> simp [h, isQueryAct]

/-- Each loop iteration emits exactly one iteration marker, so the marker
count never exceeds the budget. -/
theorem checkoutLoop_queryCount (pg : CheckoutPage) (retry : Int) (fuel : Nat) : ∀ a,
    ((checkoutLoop pg retry a fuel).1.countP isQueryAct) ≤ fuel := by
  induction fuel with
  | zero =>
    intro a
    simp [checkoutLoop]
  | succ fuel ih =>
    intro a
    rcases hsc : checkoutScan a (pg.query a) 0 with ⟨tr, res⟩
    have htr : tr.countP isQueryAct = 0 := by
      have := checkoutScan_noQuery a (pg.query a) 0
      rwa [hsc] at this
    simp only [checkoutLoop, hsc]
    cases res with
    | ok b =>
      cases b with
      | true => simp [List.countP_cons, htr, isQueryAct]
      | false =>
        cases fuel with
        | zero => simp [List.countP_cons, htr, isQueryAct]
        | succ f =>
          have := ih (a + 1)
          simp only [Nat.succ_ne_zero, if_false]
          simp [List.countP_cons, List.countP_append, htr, isQueryAct]
          omega
    | error e =>
      have := ih (a + 1)
      simp [List.countP_cons, List.countP_append, htr, isQueryAct]
      omega

/-- On a well-behaved page with never an enabled button, the loop exhausts
the budget: one marker per budgeted attempt. -/
theorem checkoutLoop_queryCount_exact {pg : CheckoutPage} (hpg : checkoutPageOK pg)
    (hnone : ∀ k, ¬ enabledAt pg k) (retry : Int) (fuel : Nat) : ∀ a,
    ((checkoutLoop pg retry a fuel).1.countP isQueryAct) = fuel := by
  induction fuel with
  | zero =>
    intro a
    simp [checkoutLoop]
  | succ fuel ih =>
    intro a
    have hsc : checkoutScan a (pg.query a) 0 = ([], .ok false) :=
      (checkoutScan_ok (hpg a) a 0).2.2
        (fun b hb hd => hnone a ⟨b, hb, hd⟩)
    simp only [checkoutLoop, hsc]
    cases fuel with
    | zero => simp [List.countP_cons, isQueryAct]
    | succ f =>
      have := ih (a + 1)
      simp only [Nat.succ_ne_zero, if_false]
      simp [List.countP_cons, List.countP_append, isQueryAct]
      omega

/-- A nonempty loop trace starts with the marker of its first iteration. -/
theorem checkoutLoop_head (pg : CheckoutPage) (retry : Int) (fuel a : Nat) :
    (checkoutLoop pg retry a fuel).1 = [] ∨
    ∃ rest, (checkoutLoop pg retry a fuel).1 = .checkoutQuery a :: rest := by
  cases fuel with
  | zero => exact Or.inl rfl
  | succ fuel =>
    rcases hsc : checkoutScan a (pg.query a) 0 with ⟨tr, res⟩
    simp only [checkoutLoop, hsc]
    cases res with
    | ok b =>
      cases b with
      | true => exact Or.inr ⟨tr, rfl⟩
      | false =>
        cases fuel with
        | zero => exact Or.inr ⟨tr, rfl⟩
        | succ f =>
          simp only [Nat.succ_ne_zero, if_false]
          exact Or.inr ⟨_, rfl⟩
    | error e => exact Or.inr ⟨_, rfl⟩

/-- Every iteration marker other than the first is immediately preceded by
the fixed `retry`-ms sleep. -/
theorem checkoutLoop_sleepBetween (pg : CheckoutPage) (retry : Int) (fuel : Nat) :
    ∀ a j, BotAct.checkoutQuery j ∈ (checkoutLoop pg retry a fuel).1 →
    j = a ∨ ∃ l r, (checkoutLoop pg retry a fuel).1 =
      l ++ .sleep retry :: .checkoutQuery j :: r := by
  induction fuel with
  | zero =>
    intro a j h
    simp [checkoutLoop] at h
  | succ fuel ih =>
    intro a j h
    rcases hsc : checkoutScan a (pg.query a) 0 with ⟨tr, res⟩
    have hnq : BotAct.checkoutQuery j ∉ tr := by
      intro hx
      have := checkoutScan_acts a (pg.query a) 0
      rw [hsc] at this
      rcases this _ hx with h' | ⟨i, h'⟩ <;> simp at h'
    simp only [checkoutLoop, hsc] at h ⊢
    cases res with
    | ok b =>
      cases b with
      | true =>
        rcases List.mem_cons.1 h with h' | h'
        · simp at h'
          exact Or.inl h'
        · exact absurd h' hnq
      | false =>
        cases fuel with
        | zero =>
          rcases List.mem_cons.1 h with h' | h'
          · simp at h'
            exact Or.inl h'
          · exact absurd h' hnq
        | succ f =>
          simp only [Nat.succ_ne_zero, if_false] at h ⊢
          rcases List.mem_cons.1 h with h' | h'
          · simp at h'
            exact Or.inl h'
          · rcases List.mem_append.1 h' with h'' | h''
            · exact absurd h'' hnq
            · rcases List.mem_cons.1 h'' with h3 | h3
              · simp at h3
              · rcases ih (a + 1) j h3 with heq | ⟨l, r', hdec⟩
                · subst heq
                  rcases checkoutLoop_head pg retry (f + 1) (a + 1) with hemp | ⟨rest, hr⟩
                  · rw [hemp] at h3
                    simp at h3
                  · refine Or.inr ⟨.checkoutQuery a :: tr, rest, ?_⟩
                    rw [hr]
                · refine Or.inr ⟨.checkoutQuery a :: tr ++ .sleep retry :: l, r', ?_⟩
                  rw [hdec]
                  simp
    | error e =>
      rcases List.mem_cons.1 h with h' | h'
      · simp at h'
        exact Or.inl h'
      · rcases List.mem_append.1 h' with h'' | h''
        · exact absurd h'' hnq
        · rcases List.mem_cons.1 h'' with h3 | h3
          · simp at h3
          · rcases ih (a + 1) j h3 with heq | ⟨l, r', hdec⟩
            · subst heq
              rcases checkoutLoop_head pg retry fuel (a + 1) with hemp | ⟨rest, hr⟩
              · rw [hemp] at h3
                simp at h3
              · refine Or.inr ⟨.checkoutQuery a :: tr, rest, ?_⟩
                rw [hr]
            · refine Or.inr ⟨.checkoutQuery a :: tr ++ .sleep retry :: l, r', ?_⟩
              rw [hdec]
              simp

/-- For a nonzero interval the wrapper is exactly the loop with budget
`(timeout_seconds * 1000) // retry_interval_ms`. -/
theorem find_checkout_eq_loop (pg : CheckoutPage) (retry t : Int) (h : retry ≠ 0) :
    find_and_click_checkout_button pg retry t =
      checkoutLoop pg retry 0 ((t * 1000).fdiv retry).toNat := by
  simp only [find_and_click_checkout_button, checkoutBody, pyFloorDiv, if_neg h]

/-- C1: for positive `retry_interval_ms` and `timeout_seconds` (and a page
whose button methods return normally), `find_and_click_checkout_button`
returns `True` iff some polling attempt within the bound
`timeout_seconds * 1000 // retry_interval_ms` sees a matched checkout
button that is not disabled — in which case that attempt clicks a button —
and if no attempt sees an enabled button it returns `False` after
exhausting all attempts. -/
theorem spec_C1 (pg : CheckoutPage) (retry t : Int)
    (hr : 0 < retry) (ht : 0 < t) (hok : checkoutPageOK pg) :
    ((find_and_click_checkout_button pg retry t).2 = true ↔
      ∃ k : Nat, k < ((t * 1000).fdiv retry).toNat ∧ enabledAt pg k)
    ∧ ((find_and_click_checkout_button pg retry t).2 = true →
      ∃ k j, k < ((t * 1000).fdiv retry).toNat ∧
        BotAct.clickCheckoutBtn k j ∈ (find_and_click_checkout_button pg retry t).1)
    ∧ ((∀ k, ¬ enabledAt pg k) →
      (find_and_click_checkout_button pg retry t).2 = false ∧
      (find_and_click_checkout_button pg retry t).1.countP isQueryAct =
        ((t * 1000).fdiv retry).toNat) := by
  rw [find_checkout_eq_loop pg retry t (by omega)]
  refine ⟨?_, ?_, ?_⟩
  · rw [checkoutLoop_true_iff hok retry _ 0]
    constructor
    · rintro ⟨k, _, hk2, he⟩
      exact ⟨k, by omega, he⟩
    · rintro ⟨k, hk, he⟩
      exact ⟨k, by omega, by omega, he⟩
  · intro h
    obtain ⟨k, j, _, hk2, hmem⟩ := checkoutLoop_click pg retry _ 0 h
    exact ⟨k, j, by omega, hmem⟩
  · intro hnone
    constructor
    · cases hval : (checkoutLoop pg retry 0 ((t * 1000).fdiv retry).toNat).2 with
      | false => rfl
      | true =>
        obtain ⟨k, _, _, he⟩ := (checkoutLoop_true_iff hok retry _ 0).1 hval
        exact absurd he (hnone k)
    · exact checkoutLoop_queryCount_exact hok hnone retry _ 0

/-- C2: for positive `retry_interval_ms` and `timeout_seconds` the polling
loop performs at most `timeout_seconds * 1000 // retry_interval_ms`
iterations (the loop is a total function, and exception iterations also
advance the counter), and every iteration after the first is immediately
preceded by the fixed `retry_interval_ms`-ms sleep. -/
theorem spec_C2 (pg : CheckoutPage) (retry t : Int) (hr : 0 < retry) (ht : 0 < t) :
    (find_and_click_checkout_button pg retry t).1.countP isQueryAct ≤
      ((t * 1000).fdiv retry).toNat
    ∧ ∀ k : Nat,
      BotAct.checkoutQuery (k + 1) ∈ (find_and_click_checkout_button pg retry t).1 →
      ∃ l r, (find_and_click_checkout_button pg retry t).1 =
        l ++ .sleep retry :: .checkoutQuery (k + 1) :: r := by
  rw [find_checkout_eq_loop pg retry t (by omega)]
  refine ⟨checkoutLoop_queryCount pg retry _ 0, ?_⟩
  intro k hmem
  rcases checkoutLoop_sleepBetween pg retry _ 0 (k + 1) hmem with heq | hdec
  · omega
  · exact hdec

/-- C10: when `retry_interval_ms` exceeds `timeout_seconds * 1000` the
attempt bound is zero and the function returns `False` with an empty trace
(it never queries or clicks); when `retry_interval_ms` is zero the division
raises `ZeroDivisionError`, which is caught, and the function still returns
`False`. -/
theorem spec_C10 :
    (∀ (pg : CheckoutPage) (retry t : Int), 0 < t → t * 1000 < retry →
      find_and_click_checkout_button pg retry t = ([], false))
    ∧ (∀ (pg : CheckoutPage) (t : Int),
      find_and_click_checkout_button pg 0 t = ([], false)) := by
  constructor
  · intro pg retry t ht hlt
    have h0 : (t * 1000).fdiv retry = 0 := by
      rw [Int.fdiv_eq_ediv _ (by omega : (0:Int) ≤ retry)]
      exact Int.ediv_eq_zero_of_lt (by omega) hlt
    rw [find_checkout_eq_loop pg retry t (by omega), h0]
    rfl
  · intro pg t
    rfl

/-- C3: an exception that reaches the boundary of any of the three click
functions (a raised selector wait, Playwright timeout, or any other
exception escaping the respective `try` body) is not propagated: the
function returns the boolean `False`. -/
theorem spec_C3 :
    (∀ (pg : DropPage) (s : String) (e : PyErr),
      (dropCardBody pg s).2 = .error e → (find_and_click_drop_card pg s).2 = false)
    ∧ (∀ (pg : ProductPage) (n : String) (e : PyErr),
      (productBody pg n).2 = .error e → (find_and_click_product pg n).2 = false)
    ∧ (∀ (pg : CheckoutPage) (r t : Int) (e : PyErr),
      (checkoutBody pg r t).2 = .error e →
        (find_and_click_checkout_button pg r t).2 = false) := by
  refine ⟨?_, ?_, ?_⟩
  · intro pg s e h
    simp only [find_and_click_drop_card]
    rcases hb : dropCardBody pg s with ⟨tr, res⟩
    rw [hb] at h
    have : res = .error e := h
    subst this
    rfl
  · intro pg n e h
    simp only [find_and_click_product]
    rcases hb : productBody pg n with ⟨tr, res⟩
    rw [hb] at h
    have : res = .error e := h
    subst this
    rfl
  · intro pg r t e h
    simp only [find_and_click_checkout_button]
    rcases hb : checkoutBody pg r t with ⟨tr, res⟩
    rw [hb] at h
    have : res = .error e := h
    subst this
    rfl

/-! ## Concrete witnesses for the checkout theorems -/

/-- A checkout button whose every method succeeds and that is enabled. -/
def witCheckoutBtn : CheckoutBtn :=
  { textEls := [⟨.ok "Checkout"⟩], isDisabled := .ok false,
    scrollIntoView := .ok (), click := .ok () }

/-- A page that always shows the single enabled checkout button. -/
def witCheckoutPage : CheckoutPage := ⟨fun _ => [witCheckoutBtn]⟩

theorem spec_C1_witness :
    (0:Int) < 500 ∧ (0:Int) < 30 ∧ checkoutPageOK witCheckoutPage ∧
    (((find_and_click_checkout_button witCheckoutPage 500 30).2 = true ↔
      ∃ k : Nat, k < (((30:Int) * 1000).fdiv 500).toNat ∧ enabledAt witCheckoutPage k)
    ∧ ((find_and_click_checkout_button witCheckoutPage 500 30).2 = true →
      ∃ k j, k < (((30:Int) * 1000).fdiv 500).toNat ∧
        BotAct.clickCheckoutBtn k j ∈
          (find_and_click_checkout_button witCheckoutPage 500 30).1)
    ∧ ((∀ k, ¬ enabledAt witCheckoutPage k) →
      (find_and_click_checkout_button witCheckoutPage 500 30).2 = false ∧
      (find_and_click_checkout_button witCheckoutPage 500 30).1.countP isQueryAct =
        (((30:Int) * 1000).fdiv 500).toNat)) :=
  ⟨by decide, by decide,
    fun k => (by decide : ∀ b ∈ [witCheckoutBtn], checkoutBtnOK b = true),
    spec_C1 witCheckoutPage 500 30 (by decide) (by decide)
      (fun k => (by decide : ∀ b ∈ [witCheckoutBtn], checkoutBtnOK b = true))⟩

theorem spec_C2_witness :
    (0:Int) < 500 ∧ (0:Int) < 30 ∧
    ((find_and_click_checkout_button witCheckoutPage 500 30).1.countP isQueryAct ≤
      (((30:Int) * 1000).fdiv 500).toNat
    ∧ ∀ k : Nat,
      BotAct.checkoutQuery (k + 1) ∈
        (find_and_click_checkout_button witCheckoutPage 500 30).1 →
      ∃ l r, (find_and_click_checkout_button witCheckoutPage 500 30).1 =
        l ++ .sleep 500 :: .checkoutQuery (k + 1) :: r) :=
  ⟨by decide, by decide, spec_C2 witCheckoutPage 500 30 (by decide) (by decide)⟩

/-- A drop page whose `wait_for_load_state` raises. -/
def witFailDropPage : DropPage :=
  { waitForLoadState := .error .otherErr, screenshot := .ok (),
    waitForSelector := fun _ => .ok (), querySelectorAll := fun _ => [] }

/-- A product page whose `wait_for_load_state` raises a Playwright timeout. -/
def witFailProductPage : ProductPage :=
  { waitForLoadState := .error .timeoutErr, screenshot := .ok (),
    waitForSelector := .ok (), buttons := [] }

theorem spec_C3_witness :
    ((dropCardBody witFailDropPage defaultTitleSearch).2 = .error .otherErr ∧
      (find_and_click_drop_card witFailDropPage defaultTitleSearch).2 = false)
    ∧ ((productBody witFailProductPage defaultProductName).2 = .error .timeoutErr ∧
      (find_and_click_product witFailProductPage defaultProductName).2 = false)
    ∧ ((checkoutBody witCheckoutPage 0 30).2 = .error .otherErr ∧
      (find_and_click_checkout_button witCheckoutPage 0 30).2 = false) :=
  ⟨⟨rfl, spec_C3.1 witFailDropPage defaultTitleSearch .otherErr rfl⟩,
   ⟨rfl, spec_C3.2.1 witFailProductPage defaultProductName .timeoutErr rfl⟩,
   ⟨rfl, spec_C3.2.2 witCheckoutPage 0 30 .otherErr rfl⟩⟩

theorem spec_C10_witness :
    (0:Int) < 2 ∧ (2:Int) * 1000 < 2001 ∧
    find_and_click_checkout_button witCheckoutPage 2001 2 = ([], false) :=
  ⟨by decide, by decide, spec_C10.1 witCheckoutPage 2001 2 (by decide) (by decide)⟩

/-! ## Lemmas about the drop-card selection -/

/-- Does a card carry an h2 whose text (retrieved successfully) contains
`title_search` case-insensitively?  This is the guard of line 123. -/
def cardMatches (title_search : String) (c : DropCard) : Bool :=
  match c.h2 with
  | none => false
  | some t =>
    match t.innerText with
    | .error _ => false
    | .ok title => pyContains (pyLower title) (pyLower title_search)

/-- Index of the first matching card, counting from `i`. -/
def firstMatchIdx (title_search : String) : List DropCard → Nat → Option Nat
  | [], _ => none
  | c :: rest, i =>
    if cardMatches title_search c then some i
    else firstMatchIdx title_search rest (i + 1)

/-- The card index a click action acts on, if it is a drop-card click. -/
def dropClickIdx : BotAct → Option Nat
  | .clickDropOrderBtn k _ => some k
  | .clickDropOrderByText k => some k
  | .clickDropCard k => some k
  | _ => none

/-- Every method called on this button element returns normally. -/
def btnElOK (b : BtnEl) : Bool :=
  exceptOk b.innerText && exceptOk b.scrollIntoView && exceptOk b.click

/-- Every method called on this card or its children returns normally. -/
def dropCardOK (c : DropCard) : Bool :=
  (match c.h2 with | some t => exceptOk t.innerText | none => true) &&
    c.soldOutEls.all (fun v => exceptOk v.isVisible) &&
    c.orderButtons.all btnElOK &&
    (match c.orderBtnByText with | some b => btnElOK b | none => true) &&
    exceptOk c.scrollIntoView && exceptOk c.click

/-- A card branch that executed `return True` had a matching title. -/
theorem processDropCard_true_matches {s : String} {i : Nat} {c : DropCard}
    (h : (processDropCard s i c).2 = true) : cardMatches s c = true := by
  unfold processDropCard at h
  cases hh2 : c.h2 with
  | none => rw [hh2] at h; simp at h
  | some tEl =>
    simp only [hh2] at h
    cases ht : tEl.innerText with
    | error e => simp only [ht] at h; simp at h
    | ok title =>
      simp only [ht] at h
      by_cases hc : pyContains (pyLower title) (pyLower s) = true
      · simp [cardMatches, hh2, ht, hc]
      · rw [if_neg hc] at h
        simp at h

/-- A card loop that returned `True` saw a matching card. -/
theorem dropCardLoop_true_matches {s : String} {l : List DropCard} : ∀ {i : Nat},
    (dropCardLoop s l i).2 = true → ∃ c ∈ l, cardMatches s c = true := by
  induction l with
  | nil => intro i h; simp [dropCardLoop] at h
  | cons c rest ih =>
    intro i h
    simp only [dropCardLoop] at h
    rcases hp : processDropCard s i c with ⟨tr, b⟩
    rw [hp] at h
    cases b with
    | true =>
      refine ⟨c, by simp, processDropCard_true_matches (i := i) ?_⟩
      rw [hp]
    | false =>
      obtain ⟨x, hx, hmx⟩ := ih h
      exact ⟨x, by simp [hx], hmx⟩

/-- A non-matching card is skipped without any action. -/
theorem processDropCard_not_match {s : String} {i : Nat} {c : DropCard}
    (hm : cardMatches s c = false) : processDropCard s i c = ([], false) := by
  unfold processDropCard
  cases hh2 : c.h2 with
  | none => simp only [hh2]
  | some tEl =>
    simp only [hh2]
    cases ht : tEl.innerText with
    | error e => simp only [ht]
    | ok title =>
      simp only [ht]
      have hf : pyContains (pyLower title) (pyLower s) = false := by
        simpa [cardMatches, hh2, ht] using hm
      rw [if_neg (by simp [hf])]

/-- `any(elem.is_visible() ...)` returns normally when every
`is_visible` does. -/
theorem checkSoldOut_ok {l : List VisEl}
    (h : ∀ v ∈ l, exceptOk v.isVisible = true) : ∃ b, checkSoldOut l = .ok b := by
  induction l with
  | nil => exact ⟨false, rfl⟩
  | cons v rest ih =>
    obtain ⟨x, hx⟩ := (exceptOk_iff _).1 (h v (by simp))
    obtain ⟨b, hb⟩ := ih (fun w hw => h w (by simp [hw]))
    cases x with
    | true => exact ⟨true, by simp [checkSoldOut, hx]⟩
    | false => exact ⟨b, by simp [checkSoldOut, hx, hb]⟩

/-- On well-behaved order buttons, strategy 1 either matches no button text
and does nothing, or clicks one button of card `i`. -/
theorem tryOrderButtons_ok (i : Nat) {btns : List BtnEl}
    (h : ∀ b ∈ btns, btnElOK b = true) : ∀ j,
    tryOrderButtons i btns j = ([], .ok false) ∨
    ∃ j', tryOrderButtons i btns j =
      ([.sleep 500, .clickDropOrderBtn i j'], .ok true) := by
  induction btns with
  | nil => intro j; exact Or.inl rfl
  | cons b rest ih =>
    intro j
    have hb := h b (by simp)
    simp only [btnElOK, Bool.and_eq_true] at hb
    obtain ⟨⟨htx, hscr⟩, hclk⟩ := hb
    obtain ⟨t, ht⟩ := (exceptOk_iff _).1 htx
    simp only [tryOrderButtons, ht]
    by_cases hcond :
        (pyContains t "Click to order" || pyContains (pyLower t) "order") = true
    · rw [if_pos hcond, exceptOk_unit hscr, exceptOk_unit hclk]
      exact Or.inr ⟨j, rfl⟩
    · rw [if_neg hcond]
      exact ih (fun x hx => h x (by simp [hx])) (j + 1)

/-- On a well-behaved matching card the branch returns `True`, performs a
click on card `i`, and every action it emits is the 500ms pre-click sleep
or a click on card `i`. -/
theorem processDropCard_ok_match {s : String} {i : Nat} {c : DropCard}
    (hok : dropCardOK c = true) (hm : cardMatches s c = true) :
    (processDropCard s i c).2 = true ∧
    (∃ a ∈ (processDropCard s i c).1, dropClickIdx a = some i) ∧
    (∀ a ∈ (processDropCard s i c).1, a = .sleep 500 ∨ dropClickIdx a = some i) := by
  simp only [dropCardOK, Bool.and_eq_true, List.all_eq_true] at hok
  obtain ⟨⟨⟨⟨⟨hh2ok, hvis⟩, hbtns⟩, hbytext⟩, hscr⟩, hclk⟩ := hok
  cases hh2 : c.h2 with
  | none => simp [cardMatches, hh2] at hm
  | some tEl =>
    rw [hh2] at hh2ok
    obtain ⟨title, ht⟩ := (exceptOk_iff _).1 hh2ok
    have hcond : pyContains (pyLower title) (pyLower s) = true := by
      simpa [cardMatches, hh2, ht] using hm
    obtain ⟨sb, hsb⟩ := checkSoldOut_ok hvis
    unfold processDropCard
    simp only [hh2, ht, hsb, if_pos hcond]
    rcases tryOrderButtons_ok i hbtns 0 with h1 | ⟨j', h1⟩
    · simp only [h1]
      cases hby : c.orderBtnByText with
      | some btn =>
        rw [hby] at hbytext
        simp only [btnElOK, Bool.and_eq_true] at hbytext
        simp only [hby, exceptOk_unit hbytext.1.2, exceptOk_unit hbytext.2]
        refine ⟨trivial, ⟨.clickDropOrderByText i, by simp, rfl⟩, ?_⟩
        intro a ha
        simp at ha
        rcases ha with rfl | rfl
        · exact Or.inl rfl
        · exact Or.inr rfl
      | none =>
        simp only [hby, exceptOk_unit hscr, exceptOk_unit hclk]
        refine ⟨trivial, ⟨.clickDropCard i, by simp, rfl⟩, ?_⟩
        intro a ha
        simp at ha
        rcases ha with rfl | rfl
        · exact Or.inl rfl
        · exact Or.inr rfl
    · simp only [h1]
      refine ⟨trivial, ⟨.clickDropOrderBtn i j', by simp, rfl⟩, ?_⟩
      intro a ha
      simp at ha
      rcases ha with rfl | rfl
      · exact Or.inl rfl
      · exact Or.inr rfl

/-- When every card is well-behaved and the first match sits at index `j`,
the loop returns `True`, clicks on card `j`, and clicks on no other card. -/
theorem dropCardLoop_firstMatch {s : String} {l : List DropCard}
    (hok : ∀ c ∈ l, dropCardOK c = true) : ∀ {i j : Nat},
    firstMatchIdx s l i = some j →
    (dropCardLoop s l i).2 = true ∧
    (∃ a ∈ (dropCardLoop s l i).1, dropClickIdx a = some j) ∧
    (∀ a ∈ (dropCardLoop s l i).1, ∀ k, dropClickIdx a = some k → k = j) := by
  induction l with
  | nil =>
    intro i j h
    simp [firstMatchIdx] at h
  | cons c rest ih =>
    intro i j h
    simp only [firstMatchIdx] at h
    cases hm : cardMatches s c with
    | true =>
      rw [hm] at h
      simp at h
      subst h
      obtain ⟨hres, hex, hall⟩ := processDropCard_ok_match (hok c (by simp)) hm (i := i)
      rcases hp : processDropCard s i c with ⟨tr, b⟩
      rw [hp] at hres hex hall
      have hb : b = true := hres
      subst hb
      simp only [dropCardLoop, hp]
      refine ⟨trivial, hex, ?_⟩
      intro a ha k hk
      rcases hall a ha with rfl | hidx
      · simp [dropClickIdx] at hk
      · rw [hidx] at hk
        exact (Option.some.inj hk).symm
    | false =>
      rw [hm] at h
      simp only [Bool.false_eq_true, if_false] at h
      have hp := processDropCard_not_match (s := s) (i := i) (c := c) hm
      obtain ⟨hres, hex, hall⟩ := ih (fun x hx => hok x (by simp [hx])) h
      simp only [dropCardLoop, hp, List.nil_append]
      exact ⟨hres, hex, hall⟩

/-- C6: `find_and_click_drop_card` selects by title match.  It returns
`True` only when some queried card has an h2 title containing
`title_search` case-insensitively; when every query response is
well-behaved it clicks on the first matching card in page order and on no
other; and when no queried card matches it returns `False`. -/
theorem spec_C6 :
    (∀ (pg : DropPage) (s : String), (find_and_click_drop_card pg s).2 = true →
      ∃ cards, findDropCards pg = .ok cards ∧ ∃ c ∈ cards, cardMatches s c = true)
    ∧ (∀ (pg : DropPage) (s : String) (cards : List DropCard) (j : Nat),
      pg.waitForLoadState = .ok () → pg.screenshot = .ok () →
      findDropCards pg = .ok cards → (∀ c ∈ cards, dropCardOK c = true) →
      firstMatchIdx s cards 0 = some j →
      (find_and_click_drop_card pg s).2 = true ∧
      (∃ a ∈ (find_and_click_drop_card pg s).1, dropClickIdx a = some j) ∧
      (∀ a ∈ (find_and_click_drop_card pg s).1, ∀ k, dropClickIdx a = some k → k = j))
    ∧ (∀ (pg : DropPage) (s : String) (cards : List DropCard),
      findDropCards pg = .ok cards → (∀ c ∈ cards, cardMatches s c = false) →
      (find_and_click_drop_card pg s).2 = false) := by
  refine ⟨?_, ?_, ?_⟩
  · intro pg s h
    unfold find_and_click_drop_card dropCardBody at h
    cases hw : pg.waitForLoadState with
    | error e => simp only [hw] at h; simp at h
    | ok u =>
      simp only [hw] at h
      cases hs : pg.screenshot with
      | error e => simp only [hs] at h; simp at h
      | ok u2 =>
        simp only [hs] at h
        cases hf : findDropCards pg with
        | error e => simp only [hf] at h; simp at h
        | ok cards =>
          simp only [hf] at h
          by_cases hemp : cards.isEmpty = true
          · rw [if_pos hemp] at h
            simp at h
          · rw [if_neg hemp] at h
            have hloop : (dropCardLoop s cards 0).2 = true := h
            obtain ⟨c, hc, hmc⟩ := dropCardLoop_true_matches hloop
            exact ⟨cards, rfl, c, hc, hmc⟩
  · intro pg s cards j hw hs hf hok hfm
    unfold find_and_click_drop_card dropCardBody
    simp only [hw, hs, hf]
    have hne : cards.isEmpty = false := by
      cases cards with
      | nil => simp [firstMatchIdx] at hfm
      | cons c rest => rfl
    rw [if_neg (by simp [hne])]
    obtain ⟨hres, hex, hall⟩ := dropCardLoop_firstMatch hok hfm
    exact ⟨hres, hex, hall⟩
  · intro pg s cards hf hnone
    unfold find_and_click_drop_card dropCardBody
    cases hw : pg.waitForLoadState with
    | error e => simp [hw]
    | ok u =>
      cases hs : pg.screenshot with
      | error e => simp [hw, hs]
      | ok u2 =>
        simp only [hw, hs, hf]
        by_cases hemp : cards.isEmpty = true
        · rw [if_pos hemp]
        · rw [if_neg hemp]
          cases hloop : (dropCardLoop s cards 0).2 with
          | false => rfl
          | true =>
            obtain ⟨c, hc, hmc⟩ := dropCardLoop_true_matches hloop
            simp [hnone c hc] at hmc

/-- An order button whose text matches and whose methods succeed. -/
def witOrderBtn : BtnEl := ⟨.ok "Click to order", .ok (), .ok ()⟩

/-- A drop card whose title matches the default search. -/
def witMatchCard : DropCard :=
  { h2 := some ⟨.ok "Thurs - Sun Bake Box"⟩, soldOutEls := [],
    orderButtons := [witOrderBtn], orderBtnByText := none,
    scrollIntoView := .ok (), click := .ok () }

/-- A drop card whose title does not match the default search. -/
def witOtherCard : DropCard :=
  { h2 := some ⟨.ok "Weekend Special"⟩, soldOutEls := [],
    orderButtons := [witOrderBtn], orderBtnByText := none,
    scrollIntoView := .ok (), click := .ok () }

/-- A storefront page listing the two cards above. -/
def witDropPage : DropPage :=
  { waitForLoadState := .ok (), screenshot := .ok (),
    waitForSelector := fun _ => .ok (),
    querySelectorAll := fun _ => [witOtherCard, witMatchCard] }

theorem spec_C6_witness :
    witDropPage.waitForLoadState = .ok () ∧ witDropPage.screenshot = .ok () ∧
    findDropCards witDropPage = .ok [witOtherCard, witMatchCard] ∧
    (∀ c ∈ [witOtherCard, witMatchCard], dropCardOK c = true) ∧
    firstMatchIdx defaultTitleSearch [witOtherCard, witMatchCard] 0 = some 1 ∧
    ((find_and_click_drop_card witDropPage defaultTitleSearch).2 = true ∧
      (∃ a ∈ (find_and_click_drop_card witDropPage defaultTitleSearch).1,
        dropClickIdx a = some 1) ∧
      (∀ a ∈ (find_and_click_drop_card witDropPage defaultTitleSearch).1,
        ∀ k, dropClickIdx a = some k → k = 1)) :=
  ⟨rfl, rfl, rfl, by decide, by decide,
    spec_C6.2.1 witDropPage defaultTitleSearch [witOtherCard, witMatchCard] 1
      rfl rfl rfl (by decide) (by decide)⟩

/-! ## Lemmas about `run_bot` (claims C4 and C5) -/

/-- Actions emitted by `run_bot` itself rather than by a click function. -/
def isStepAct : BotAct → Bool
  | .stepGoto => true
  | .stepDrop => true
  | .stepProduct => true
  | .stepCheckout => true
  | .browserClose => true
  | _ => false

/-- Strategy 1 emits no step marker. -/
theorem tryOrderButtons_acts (i : Nat) (btns : List BtnEl) : ∀ j,
    ∀ a ∈ (tryOrderButtons i btns j).1, isStepAct a = false := by
  induction btns with
  | nil => intro j a ha; simp [tryOrderButtons] at ha
  | cons b rest ih =>
    intro j a ha
    simp only [tryOrderButtons] at ha
    cases htx : b.innerText with
    | error e => simp only [htx] at ha; simp at ha
    | ok t =>
      simp only [htx] at ha
      by_cases hcond :
          (pyContains t "Click to order" || pyContains (pyLower t) "order") = true
      · rw [if_pos hcond] at ha
        cases hscr : b.scrollIntoView with
        | error e => simp only [hscr] at ha; simp at ha
        | ok u =>
          simp only [hscr] at ha
          cases hclk : b.click with
          | error e =>
            simp only [hclk] at ha
            simp at ha
            subst ha
            rfl
          | ok v =>
            simp only [hclk] at ha
            simp at ha
            rcases ha with rfl | rfl <;> rfl
      · rw [if_neg hcond] at ha
        exact ih (j + 1) a ha

/-- The card branch emits no step marker. -/
theorem processDropCard_acts (s : String) (i : Nat) (c : DropCard) :
    ∀ a ∈ (processDropCard s i c).1, isStepAct a = false := by
  intro a ha
  unfold processDropCard at ha
  cases hh2 : c.h2 with
  | none => simp only [hh2] at ha; simp at ha
  | some tEl =>
    simp only [hh2] at ha
    cases ht : tEl.innerText with
    | error e => simp only [ht] at ha; simp at ha
    | ok title =>
      simp only [ht] at ha
      by_cases hc : pyContains (pyLower title) (pyLower s) = true
      · rw [if_pos hc] at ha
        cases hso : checkSoldOut c.soldOutEls with
        | error e => simp only [hso] at ha; simp at ha
        | ok sb =>
          simp only [hso] at ha
          rcases htb : tryOrderButtons i c.orderButtons 0 with ⟨tr, res⟩
          have htr : ∀ x ∈ tr, isStepAct x = false := by
            intro x hx
            have hh := tryOrderButtons_acts i c.orderButtons 0 x
            rw [htb] at hh
            exact hh hx
          rw [htb] at ha
          cases res with
          | error e => exact htr a ha
          | ok bb =>
            cases bb with
            | true => exact htr a ha
            | false =>
              cases hby : c.orderBtnByText with
              | some btn =>
                simp only [hby] at ha
                cases hscr : btn.scrollIntoView with
                | error e => simp only [hscr] at ha; exact htr a ha
                | ok u =>
                  simp only [hscr] at ha
                  cases hclk : btn.click with
                  | error e =>
                    simp only [hclk] at ha
                    simp at ha
                    rcases ha with ha | rfl
                    · exact htr a ha
                    · rfl
                  | ok v =>
                    simp only [hclk] at ha
                    simp at ha
                    rcases ha with ha | rfl | rfl
                    · exact htr a ha
                    · rfl
                    · rfl
              | none =>
                simp only [hby] at ha
                cases hscr : c.scrollIntoView with
                | error e => simp only [hscr] at ha; exact htr a ha
                | ok u =>
                  simp only [hscr] at ha
                  cases hclk : c.click with
                  | error e =>
                    simp only [hclk] at ha
                    simp at ha
                    rcases ha with ha | rfl
                    · exact htr a ha
                    · rfl
                  | ok v =>
                    simp only [hclk] at ha
                    simp at ha
                    rcases ha with ha | rfl | rfl
                    · exact htr a ha
                    · rfl
                    · rfl
      · rw [if_neg hc] at ha
        simp at ha

/-- The card loop emits no step marker. -/
theorem dropCardLoop_acts (s : String) (l : List DropCard) : ∀ i,
    ∀ a ∈ (dropCardLoop s l i).1, isStepAct a = false := by
  induction l with
  | nil => intro i a ha; simp [dropCardLoop] at ha
  | cons c rest ih =>
    intro i a ha
    simp only [dropCardLoop] at ha
    rcases hp : processDropCard s i c with ⟨tr, b⟩
    rw [hp] at ha
    have htr : ∀ x ∈ tr, isStepAct x = false := by
      intro x hx
      have hh := processDropCard_acts s i c x
      rw [hp] at hh
      exact hh hx
    cases b with
    | true => exact htr a ha
    | false =>
      rcases List.mem_append.1 ha with h1 | h1
      · exact htr a h1
      · exact ih (i + 1) a h1

/-- `find_and_click_drop_card` emits no step marker. -/
theorem dropTrace_acts (pg : DropPage) (s : String) :
    ∀ a ∈ (find_and_click_drop_card pg s).1, isStepAct a = false := by
  intro a ha
  unfold find_and_click_drop_card dropCardBody at ha
  cases hw : pg.waitForLoadState with
  | error e => simp only [hw] at ha; simp at ha
  | ok u =>
    simp only [hw] at ha
    cases hs : pg.screenshot with
    | error e => simp only [hs] at ha; simp at ha
    | ok u2 =>
      simp only [hs] at ha
      cases hf : findDropCards pg with
      | error e => simp only [hf] at ha; simp at ha
      | ok cards =>
        simp only [hf] at ha
        by_cases hemp : cards.isEmpty = true
        · rw [if_pos hemp] at ha
          simp at ha
        · rw [if_neg hemp] at ha
          exact dropCardLoop_acts s cards 0 a ha

/-- The product branch emits no step marker. -/
theorem processProductBtn_acts (n : String) (i : Nat) (b : ProductBtn) :
    ∀ a ∈ (processProductBtn n i b).1, isStepAct a = false := by
  intro a ha
  unfold processProductBtn at ha
  cases hh3 : b.h3 with
  | none => simp only [hh3] at ha; simp at ha
  | some tEl =>
    simp only [hh3] at ha
    cases ht : tEl.innerText with
    | error e => simp only [ht] at ha; simp at ha
    | ok title =>
      simp only [ht] at ha
      cases hpr : priceOf b.priceEl with
      | error e => simp only [hpr] at ha; simp at ha
      | ok pr =>
        simp only [hpr] at ha
        cases hst : statusOf b.dataStatusEl with
        | error e => simp only [hst] at ha; simp at ha
        | ok st =>
          simp only [hst] at ha
          cases hsb : soldOutOf b.soldOutBadge with
          | error e => simp only [hsb] at ha; simp at ha
          | ok sb =>
            simp only [hsb] at ha
            by_cases hc : pyContains (pyLower title) (pyLower n) = true
            · rw [if_pos hc] at ha
              cases hscr : b.scrollIntoView with
              | error e => simp only [hscr] at ha; simp at ha
              | ok u =>
                simp only [hscr] at ha
                cases hclk : b.click with
                | error e =>
                  simp only [hclk] at ha
                  simp at ha
                  subst ha
                  rfl
                | ok v =>
                  simp only [hclk] at ha
                  simp at ha
                  rcases ha with rfl | rfl <;> rfl
            · rw [if_neg hc] at ha
              simp at ha

/-- The product loop emits no step marker. -/
theorem productLoop_acts (n : String) (l : List ProductBtn) : ∀ i,
    ∀ a ∈ (productLoop n l i).1, isStepAct a = false := by
  induction l with
  | nil => intro i a ha; simp [productLoop] at ha
  | cons b rest ih =>
    intro i a ha
    simp only [productLoop] at ha
    rcases hp : processProductBtn n i b with ⟨tr, bb⟩
    rw [hp] at ha
    have htr : ∀ x ∈ tr, isStepAct x = false := by
      intro x hx
      have hh := processProductBtn_acts n i b x
      rw [hp] at hh
      exact hh hx
    cases bb with
    | true => exact htr a ha
    | false =>
      rcases List.mem_append.1 ha with h1 | h1
      · exact htr a h1
      · exact ih (i + 1) a h1

/-- `find_and_click_product` emits no step marker. -/
theorem productTrace_acts (pg : ProductPage) (n : String) :
    ∀ a ∈ (find_and_click_product pg n).1, isStepAct a = false := by
  intro a ha
  unfold find_and_click_product productBody at ha
  cases hw : pg.waitForLoadState with
  | error e => simp only [hw] at ha; simp at ha
  | ok u =>
    simp only [hw] at ha
    cases hs : pg.screenshot with
    | error e => simp only [hs] at ha; simp at ha
    | ok u2 =>
      simp only [hs] at ha
      cases hws : pg.waitForSelector with
      | error e => simp only [hws] at ha; simp at ha
      | ok u3 =>
        simp only [hws] at ha
        exact productLoop_acts n pg.buttons 0 a ha

/-- The polling loop emits no step marker. -/
theorem checkoutLoop_acts (pg : CheckoutPage) (retry : Int) (fuel : Nat) : ∀ a,
    ∀ x ∈ (checkoutLoop pg retry a fuel).1, isStepAct x = false := by
  induction fuel with
  | zero => intro a x hx; simp [checkoutLoop] at hx
  | succ fuel ih =>
    intro a x hx
    rcases hsc : checkoutScan a (pg.query a) 0 with ⟨tr, res⟩
    have htr : ∀ y ∈ tr, isStepAct y = false := by
      intro y hy
      have hh := checkoutScan_acts a (pg.query a) 0 y
      rw [hsc] at hh
      rcases hh hy with rfl | ⟨j, rfl⟩ <;> rfl
    simp only [checkoutLoop, hsc] at hx
    cases res with
    | ok b =>
      cases b with
      | true =>
        rcases List.mem_cons.1 hx with rfl | h1
        · rfl
        · exact htr x h1
      | false =>
        cases fuel with
        | zero =>
          rcases List.mem_cons.1 hx with rfl | h1
          · rfl
          · exact htr x h1
        | succ f =>
          simp only [Nat.succ_ne_zero, if_false] at hx
          rcases List.mem_cons.1 hx with rfl | h1
          · rfl
          · rcases List.mem_append.1 h1 with h2 | h2
            · exact htr x h2
            · rcases List.mem_cons.1 h2 with rfl | h3
              · rfl
              · exact ih (a + 1) x h3
    | error e =>
      rcases List.mem_cons.1 hx with rfl | h1
      · rfl
      · rcases List.mem_append.1 h1 with h2 | h2
        · exact htr x h2
        · rcases List.mem_cons.1 h2 with rfl | h3
          · rfl
          · exact ih (a + 1) x h3

/-- `find_and_click_checkout_button` emits no step marker. -/
theorem checkoutTrace_acts (pg : CheckoutPage) (r t : Int) :
    ∀ a ∈ (find_and_click_checkout_button pg r t).1, isStepAct a = false := by
  intro a ha
  unfold find_and_click_checkout_button checkoutBody pyFloorDiv at ha
  by_cases hr : r = 0
  · rw [if_pos hr] at ha
    simp at ha
  · rw [if_neg hr] at ha
    exact checkoutLoop_acts pg r _ 0 a ha

/-- A step marker cannot occur in a step-free trace. -/
theorem stepFree_notMem {l : List BotAct} (h : ∀ a ∈ l, isStepAct a = false)
    {x : BotAct} (hx : isStepAct x = true) : x ∉ l := by
  intro hmem
  rw [h x hmem] at hx
  exact Bool.false_ne_true hx

/-- C4: when `load_config` and the browser setup succeed, every exception
of the `try` body of `run_bot` (navigation and the three click steps) is
caught — `run_bot` returns normally — and `browser.close()` is the final
action on every exit path of that body, normal or exceptional. -/
theorem spec_C4 (w : World) (cfg : BotConfig)
    (hcfg : load_config w.env = .ok cfg) (hsetup : w.setup = .ok ()) :
    (run_bot w).2 = .ok () ∧ (run_bot w).1.getLast? = some .browserClose := by
  unfold run_bot
  simp only [hcfg, hsetup]
  exact ⟨trivial, List.getLast?_concat _⟩

/-- C5: `run_bot` runs its steps strictly in order — config, goto, drop
card, product, checkout — and a later click step runs only when the
previous click step returned `True`. -/
theorem spec_C5 (w : World) :
    (BotAct.stepDrop ∈ (run_bot w).1 → ∃ cfg, load_config w.env = .ok cfg)
    ∧ (BotAct.stepProduct ∈ (run_bot w).1 →
      (find_and_click_drop_card w.dropPage defaultTitleSearch).2 = true ∧
      ∃ l1 l2 l3, (run_bot w).1 = l1 ++ .stepDrop :: l2 ++ .stepProduct :: l3)
    ∧ (BotAct.stepCheckout ∈ (run_bot w).1 →
      (find_and_click_product w.productPage defaultProductName).2 = true ∧
      ∃ l1 l2 l3, (run_bot w).1 = l1 ++ .stepProduct :: l2 ++ .stepCheckout :: l3) := by
  cases hcfg : load_config w.env with
  | error e =>
    have htr : (run_bot w).1 = [] := by simp [run_bot, hcfg]
    rw [htr]
    exact ⟨fun h => by simp at h, fun h => by simp at h, fun h => by simp at h⟩
  | ok cfg =>
    cases hsetup : w.setup with
    | error e =>
      have htr : (run_bot w).1 = [] := by simp [run_bot, hcfg, hsetup]
      rw [htr]
      exact ⟨fun h => by simp at h, fun h => by simp at h, fun h => by simp at h⟩
    | ok u =>
      cases hgoto : w.goto with
      | error e =>
        have htr : (run_bot w).1 = [.stepGoto, .browserClose] := by
          simp [run_bot, runBotTry, hcfg, hsetup, hgoto]
        rw [htr]
        exact ⟨fun _ => ⟨cfg, rfl⟩, fun h => by simp at h, fun h => by simp at h⟩
      | ok u2 =>
        have hnd1 :
            BotAct.stepProduct ∉ (find_and_click_drop_card w.dropPage defaultTitleSearch).1 :=
          stepFree_notMem (dropTrace_acts w.dropPage defaultTitleSearch) rfl
        have hnd2 :
            BotAct.stepCheckout ∉ (find_and_click_drop_card w.dropPage defaultTitleSearch).1 :=
          stepFree_notMem (dropTrace_acts w.dropPage defaultTitleSearch) rfl
        have hnp :
            BotAct.stepCheckout ∉ (find_and_click_product w.productPage defaultProductName).1 :=
          stepFree_notMem (productTrace_acts w.productPage defaultProductName) rfl
        cases hhl : cfg.headless with
        | true =>
          cases hr1 : (find_and_click_drop_card w.dropPage defaultTitleSearch).2 with
          | false =>
            have htr : (run_bot w).1 = BotAct.stepGoto :: BotAct.stepDrop ::
                (find_and_click_drop_card w.dropPage defaultTitleSearch).1 ++
                [BotAct.browserClose] := by
              simp [run_bot, runBotTry, hcfg, hsetup, hgoto, hr1, hhl]
            rw [htr]
            refine ⟨fun _ => ⟨cfg, rfl⟩, fun h => ?_, fun h => ?_⟩
            · simp [hnd1] at h
            · simp [hnd2] at h
          | true =>
            cases hr2 : (find_and_click_product w.productPage defaultProductName).2 with
            | false =>
              have htr : (run_bot w).1 = BotAct.stepGoto :: BotAct.stepDrop ::
                  (find_and_click_drop_card w.dropPage defaultTitleSearch).1 ++
                  BotAct.sleep 3000 :: BotAct.stepProduct ::
                  (find_and_click_product w.productPage defaultProductName).1 ++
                  [BotAct.browserClose] := by
                simp [run_bot, runBotTry, runBotProductStep, hcfg, hsetup, hgoto,
                  hr1, hr2, hhl]
              rw [htr]
              refine ⟨fun _ => ⟨cfg, rfl⟩, fun _ => ⟨rfl, ?_⟩, fun h => ?_⟩
              · refine ⟨[BotAct.stepGoto],
                  (find_and_click_drop_card w.dropPage defaultTitleSearch).1 ++
                    [BotAct.sleep 3000],
                  (find_and_click_product w.productPage defaultProductName).1 ++
                    [BotAct.browserClose], ?_⟩
                simp
              · simp [hnd2, hnp] at h
            | true =>
              cases hr3 : (find_and_click_checkout_button w.checkoutPage
                  cfg.retry_interval_ms cfg.timeout_seconds).2 with
              | false =>
                have htr : (run_bot w).1 = BotAct.stepGoto :: BotAct.stepDrop ::
                    (find_and_click_drop_card w.dropPage defaultTitleSearch).1 ++
                    BotAct.sleep 3000 :: BotAct.stepProduct ::
                    (find_and_click_product w.productPage defaultProductName).1 ++
                    BotAct.sleep 2000 :: BotAct.stepCheckout ::
                    (find_and_click_checkout_button w.checkoutPage
                      cfg.retry_interval_ms cfg.timeout_seconds).1 ++
                    [BotAct.browserClose] := by
                  simp [run_bot, runBotTry, runBotProductStep, runBotCheckoutStep,
                    hcfg, hsetup, hgoto, hr1, hr2, hr3, hhl]
                rw [htr]
                refine ⟨fun _ => ⟨cfg, rfl⟩, fun _ => ⟨rfl, ?_⟩, fun _ => ⟨rfl, ?_⟩⟩
                · refine ⟨[BotAct.stepGoto],
                    (find_and_click_drop_card w.dropPage defaultTitleSearch).1 ++
                      [BotAct.sleep 3000],
                    (find_and_click_product w.productPage defaultProductName).1 ++
                      BotAct.sleep 2000 :: BotAct.stepCheckout ::
                      (find_and_click_checkout_button w.checkoutPage
                        cfg.retry_interval_ms cfg.timeout_seconds).1 ++
                      [BotAct.browserClose], ?_⟩
                  simp
                · refine ⟨BotAct.stepGoto :: BotAct.stepDrop ::
                      (find_and_click_drop_card w.dropPage defaultTitleSearch).1 ++
                      [BotAct.sleep 3000],
                    (find_and_click_product w.productPage defaultProductName).1 ++
                      [BotAct.sleep 2000],
                    (find_and_click_checkout_button w.checkoutPage
                      cfg.retry_interval_ms cfg.timeout_seconds).1 ++
                      [BotAct.browserClose], ?_⟩
                  simp
              | true =>
                have htr : (run_bot w).1 = BotAct.stepGoto :: BotAct.stepDrop ::
                    (find_and_click_drop_card w.dropPage defaultTitleSearch).1 ++
                    BotAct.sleep 3000 :: BotAct.stepProduct ::
                    (find_and_click_product w.productPage defaultProductName).1 ++
                    BotAct.sleep 2000 :: BotAct.stepCheckout ::
                    (find_and_click_checkout_button w.checkoutPage
                      cfg.retry_interval_ms cfg.timeout_seconds).1 ++
                    [BotAct.sleep 3000, BotAct.browserClose] := by
                  simp [run_bot, runBotTry, runBotProductStep, runBotCheckoutStep,
                    hcfg, hsetup, hgoto, hr1, hr2, hr3, hhl]
                rw [htr]
                refine ⟨fun _ => ⟨cfg, rfl⟩, fun _ => ⟨rfl, ?_⟩, fun _ => ⟨rfl, ?_⟩⟩
                · refine ⟨[BotAct.stepGoto],
                    (find_and_click_drop_card w.dropPage defaultTitleSearch).1 ++
                      [BotAct.sleep 3000],
                    (find_and_click_product w.productPage defaultProductName).1 ++
                      BotAct.sleep 2000 :: BotAct.stepCheckout ::
                      (find_and_click_checkout_button w.checkoutPage
                        cfg.retry_interval_ms cfg.timeout_seconds).1 ++
                      [BotAct.sleep 3000, BotAct.browserClose], ?_⟩
                  simp
                · refine ⟨BotAct.stepGoto :: BotAct.stepDrop ::
                      (find_and_click_drop_card w.dropPage defaultTitleSearch).1 ++
                      [BotAct.sleep 3000],
                    (find_and_click_product w.productPage defaultProductName).1 ++
                      [BotAct.sleep 2000],
                    (find_and_click_checkout_button w.checkoutPage
                      cfg.retry_interval_ms cfg.timeout_seconds).1 ++
                      [BotAct.sleep 3000, BotAct.browserClose], ?_⟩
                  simp
        | false =>
          cases hr1 : (find_and_click_drop_card w.dropPage defaultTitleSearch).2 with
          | false =>
            have htr : (run_bot w).1 = BotAct.stepGoto :: BotAct.stepDrop ::
                (find_and_click_drop_card w.dropPage defaultTitleSearch).1 ++
                [BotAct.sleep 10000, BotAct.browserClose] := by
              simp [run_bot, runBotTry, hcfg, hsetup, hgoto, hr1, hhl]
            rw [htr]
            refine ⟨fun _ => ⟨cfg, rfl⟩, fun h => ?_, fun h => ?_⟩
            · simp [hnd1] at h
            · simp [hnd2] at h
          | true =>
            cases hr2 : (find_and_click_product w.productPage defaultProductName).2 with
            | false =>
              have htr : (run_bot w).1 = BotAct.stepGoto :: BotAct.stepDrop ::
                  (find_and_click_drop_card w.dropPage defaultTitleSearch).1 ++
                  BotAct.sleep 3000 :: BotAct.stepProduct ::
                  (find_and_click_product w.productPage defaultProductName).1 ++
                  [BotAct.sleep 10000, BotAct.browserClose] := by
                simp [run_bot, runBotTry, runBotProductStep, hcfg, hsetup, hgoto,
                  hr1, hr2, hhl]
              rw [htr]
              refine ⟨fun _ => ⟨cfg, rfl⟩, fun _ => ⟨rfl, ?_⟩, fun h => ?_⟩
              · refine ⟨[BotAct.stepGoto],
                  (find_and_click_drop_card w.dropPage defaultTitleSearch).1 ++
                    [BotAct.sleep 3000],
                  (find_and_click_product w.productPage defaultProductName).1 ++
                    [BotAct.sleep 10000, BotAct.browserClose], ?_⟩
                simp
              · simp [hnd2, hnp] at h
            | true =>
              cases hr3 : (find_and_click_checkout_button w.checkoutPage
                  cfg.retry_interval_ms cfg.timeout_seconds).2 with
              | false =>
                have htr : (run_bot w).1 = BotAct.stepGoto :: BotAct.stepDrop ::
                    (find_and_click_drop_card w.dropPage defaultTitleSearch).1 ++
                    BotAct.sleep 3000 :: BotAct.stepProduct ::
                    (find_and_click_product w.productPage defaultProductName).1 ++
                    BotAct.sleep 2000 :: BotAct.stepCheckout ::
                    (find_and_click_checkout_button w.checkoutPage
                      cfg.retry_interval_ms cfg.timeout_seconds).1 ++
                    [BotAct.sleep 10000, BotAct.browserClose] := by
                  simp [run_bot, runBotTry, runBotProductStep, runBotCheckoutStep,
                    hcfg, hsetup, hgoto, hr1, hr2, hr3, hhl]
                rw [htr]
                refine ⟨fun _ => ⟨cfg, rfl⟩, fun _ => ⟨rfl, ?_⟩, fun _ => ⟨rfl, ?_⟩⟩
                · refine ⟨[BotAct.stepGoto],
                    (find_and_click_drop_card w.dropPage defaultTitleSearch).1 ++
                      [BotAct.sleep 3000],
                    (find_and_click_product w.productPage defaultProductName).1 ++
                      BotAct.sleep 2000 :: BotAct.stepCheckout ::
                      (find_and_click_checkout_button w.checkoutPage
                        cfg.retry_interval_ms cfg.timeout_seconds).1 ++
                      [BotAct.sleep 10000, BotAct.browserClose], ?_⟩
                  simp
                · refine ⟨BotAct.stepGoto :: BotAct.stepDrop ::
                      (find_and_click_drop_card w.dropPage defaultTitleSearch).1 ++
                      [BotAct.sleep 3000],
                    (find_and_click_product w.productPage defaultProductName).1 ++
                      [BotAct.sleep 2000],
                    (find_and_click_checkout_button w.checkoutPage
                      cfg.retry_interval_ms cfg.timeout_seconds).1 ++
                      [BotAct.sleep 10000, BotAct.browserClose], ?_⟩
                  simp
              | true =>
                have htr : (run_bot w).1 = BotAct.stepGoto :: BotAct.stepDrop ::
                    (find_and_click_drop_card w.dropPage defaultTitleSearch).1 ++
                    BotAct.sleep 3000 :: BotAct.stepProduct ::
                    (find_and_click_product w.productPage defaultProductName).1 ++
                    BotAct.sleep 2000 :: BotAct.stepCheckout ::
                    (find_and_click_checkout_button w.checkoutPage
                      cfg.retry_interval_ms cfg.timeout_seconds).1 ++
                    [BotAct.sleep 3000, BotAct.sleep 10000, BotAct.browserClose] := by
                  simp [run_bot, runBotTry, runBotProductStep, runBotCheckoutStep,
                    hcfg, hsetup, hgoto, hr1, hr2, hr3, hhl]
                rw [htr]
                refine ⟨fun _ => ⟨cfg, rfl⟩, fun _ => ⟨rfl, ?_⟩, fun _ => ⟨rfl, ?_⟩⟩
                · refine ⟨[BotAct.stepGoto],
                    (find_and_click_drop_card w.dropPage defaultTitleSearch).1 ++
                      [BotAct.sleep 3000],
                    (find_and_click_product w.productPage defaultProductName).1 ++
                      BotAct.sleep 2000 :: BotAct.stepCheckout ::
                      (find_and_click_checkout_button w.checkoutPage
                        cfg.retry_interval_ms cfg.timeout_seconds).1 ++
                      [BotAct.sleep 3000, BotAct.sleep 10000, BotAct.browserClose], ?_⟩
                  simp
                · refine ⟨BotAct.stepGoto :: BotAct.stepDrop ::
                      (find_and_click_drop_card w.dropPage defaultTitleSearch).1 ++
                      [BotAct.sleep 3000],
                    (find_and_click_product w.productPage defaultProductName).1 ++
                      [BotAct.sleep 2000],
                    (find_and_click_checkout_button w.checkoutPage
                      cfg.retry_interval_ms cfg.timeout_seconds).1 ++
                      [BotAct.sleep 3000, BotAct.sleep 10000, BotAct.browserClose], ?_⟩
                  simp

/-- A product button matching the default product name. -/
def witProductBtn : ProductBtn :=
  { h3 := some ⟨.ok "Small Pastry Box"⟩, priceEl := none, dataStatusEl := none,
    soldOutBadge := none, scrollIntoView := .ok (), click := .ok () }

/-- A product page listing the button above. -/
def witProductPage : ProductPage :=
  { waitForLoadState := .ok (), screenshot := .ok (), waitForSelector := .ok (),
    buttons := [witProductBtn] }

/-- A fully successful world: default environment, working pages. -/
def witWorld : World :=
  { env := fun _ => none, setup := .ok (), goto := .ok (),
    dropPage := witDropPage, productPage := witProductPage,
    checkoutPage := witCheckoutPage }

/-- The configuration the default environment produces. -/
def witConfig : BotConfig :=
  { url := "https://www.hotplate.com/butterandcrumble", headless := true,
    retry_interval_ms := 500, timeout_seconds := 30 }

theorem spec_C4_witness :
    load_config witWorld.env = .ok witConfig ∧ witWorld.setup = .ok () ∧
    ((run_bot witWorld).2 = .ok () ∧
      (run_bot witWorld).1.getLast? = some .browserClose) :=
  ⟨rfl, rfl, spec_C4 witWorld witConfig rfl rfl⟩

theorem spec_C5_witness :
    BotAct.stepProduct ∈ (run_bot witWorld).1 ∧
    ((find_and_click_drop_card witWorld.dropPage defaultTitleSearch).2 = true ∧
      ∃ l1 l2 l3, (run_bot witWorld).1 = l1 ++ .stepDrop :: l2 ++ .stepProduct :: l3) ∧
    BotAct.stepCheckout ∈ (run_bot witWorld).1 ∧
    ((find_and_click_product witWorld.productPage defaultProductName).2 = true ∧
      ∃ l1 l2 l3, (run_bot witWorld).1 = l1 ++ .stepProduct :: l2 ++ .stepCheckout :: l3) :=
  ⟨by decide, (spec_C5 witWorld).2.1 (by decide), by decide,
    (spec_C5 witWorld).2.2 (by decide)⟩

/-! ## Claims about `load_config` and `parse_drop_date` -/

/-- C7: `load_config` reads exactly `HOTPLATE_URL`, `HEADLESS`,
`RETRY_INTERVAL_MS` and `TIMEOUT_SECONDS` (its result depends on no other
variable), applies the documented defaults when a variable is unset, and
returns `retry_interval_ms` and `timeout_seconds` as integers (the
`BotConfig` fields are `Int`, produced by `int(...)`). -/
theorem spec_C7 :
    (∀ env1 env2 : Env,
      (∀ k ∈ (["HOTPLATE_URL", "HEADLESS", "RETRY_INTERVAL_MS", "TIMEOUT_SECONDS"] :
        List String), env1 k = env2 k) →
      load_config env1 = load_config env2)
    ∧ load_config (fun _ => none) =
        .ok { url := "https://www.hotplate.com/butterandcrumble", headless := true,
              retry_interval_ms := 500, timeout_seconds := 30 }
    ∧ (∀ (env : Env) (c : BotConfig), load_config env = .ok c →
        (env "HOTPLATE_URL" = none →
          c.url = "https://www.hotplate.com/butterandcrumble")
        ∧ (env "HEADLESS" = none → c.headless = true)
        ∧ (env "RETRY_INTERVAL_MS" = none → c.retry_interval_ms = 500)
        ∧ (env "TIMEOUT_SECONDS" = none → c.timeout_seconds = 30)) := by
  refine ⟨?_, rfl, ?_⟩
  · intro env1 env2 h
    have h1 := h "HOTPLATE_URL" (by simp)
    have h2 := h "HEADLESS" (by simp)
    have h3 := h "RETRY_INTERVAL_MS" (by simp)
    have h4 := h "TIMEOUT_SECONDS" (by simp)
    unfold load_config
    rw [h1, h2, h3, h4]
  · intro env c hc
    unfold load_config at hc
    cases hr : pyInt ((env "RETRY_INTERVAL_MS").getD "500") with
    | error e => simp only [hr] at hc; simp at hc
    | ok r =>
      simp only [hr] at hc
      cases ht : pyInt ((env "TIMEOUT_SECONDS").getD "30") with
      | error e => simp only [ht] at hc; simp at hc
      | ok t =>
        simp only [ht] at hc
        injection hc with h
        subst h
        refine ⟨fun hu => by simp only [hu]; rfl,
          fun hh => by simp only [hh]; rfl, fun hri => ?_, fun hti => ?_⟩
        · rw [hri] at hr
          have h500 : pyInt (Option.getD none "500") = Except.ok 500 := rfl
          rw [h500] at hr
          injection hr with hv
          exact hv.symm
        · rw [hti] at ht
          have h30 : pyInt (Option.getD none "30") = Except.ok 30 := rfl
          rw [h30] at ht
          injection ht with hv
          exact hv.symm

/-- The headless flag is the Python comparison
`os.getenv('HEADLESS', 'true').lower() == 'true'`. -/
theorem load_config_headless (env : Env) (c : BotConfig)
    (hc : load_config env = .ok c) :
    c.headless = (pyLower ((env "HEADLESS").getD "true") == "true") := by
  unfold load_config at hc
  cases hr : pyInt ((env "RETRY_INTERVAL_MS").getD "500") with
  | error e => simp only [hr] at hc; simp at hc
  | ok r =>
    simp only [hr] at hc
    cases ht : pyInt ((env "TIMEOUT_SECONDS").getD "30") with
    | error e => simp only [ht] at hc; simp at hc
    | ok t =>
      simp only [ht] at hc
      injection hc with h
      rw [← h]

/-- C9: the headless flag is `True` exactly when the `HEADLESS` value
(default `"true"`) lower-cases to the literal string `"true"`; any other
value yields `False` rather than an error. -/
theorem spec_C9 :
    (∀ (env : Env) (c : BotConfig), load_config env = .ok c →
      (c.headless = true ↔ pyLower ((env "HEADLESS").getD "true") = "true"))
    ∧ (∀ (env : Env) (c : BotConfig), load_config env = .ok c →
      pyLower ((env "HEADLESS").getD "true") ≠ "true" → c.headless = false) := by
  constructor
  · intro env c hc
    rw [load_config_headless env c hc]
    exact beq_iff_eq
  · intro env c hc hne
    rw [load_config_headless env c hc]
    simpa using hne

/-- An environment that sets only an unrelated variable. -/
def witEnvA : Env := fun _ => none

/-- An environment that differs from `witEnvA` outside the four keys. -/
def witEnvB : Env := fun k => if k = "SOMETHING_ELSE" then some "x" else none

theorem spec_C7_witness :
    (∀ k ∈ (["HOTPLATE_URL", "HEADLESS", "RETRY_INTERVAL_MS", "TIMEOUT_SECONDS"] :
      List String), witEnvA k = witEnvB k)
    ∧ load_config witEnvA = load_config witEnvB
    ∧ load_config witEnvA = .ok witConfig
    ∧ ((witEnvA "HOTPLATE_URL" = none →
        witConfig.url = "https://www.hotplate.com/butterandcrumble")
      ∧ (witEnvA "HEADLESS" = none → witConfig.headless = true)
      ∧ (witEnvA "RETRY_INTERVAL_MS" = none → witConfig.retry_interval_ms = 500)
      ∧ (witEnvA "TIMEOUT_SECONDS" = none → witConfig.timeout_seconds = 30)) :=
  ⟨by decide, spec_C7.1 witEnvA witEnvB (by decide), rfl,
    spec_C7.2.2 witEnvA witConfig rfl⟩

/-- An environment setting `HEADLESS` to `"TRUE "` (trailing blank). -/
def witEnvH : Env := fun k => if k = "HEADLESS" then some "TRUE " else none

/-- The configuration `witEnvH` produces: headless off. -/
def witConfigH : BotConfig :=
  { url := "https://www.hotplate.com/butterandcrumble", headless := false,
    retry_interval_ms := 500, timeout_seconds := 30 }

theorem spec_C9_witness :
    load_config witEnvH = .ok witConfigH ∧
    (witConfigH.headless = true ↔
      pyLower ((witEnvH "HEADLESS").getD "true") = "true") :=
  ⟨rfl, spec_C9.1 witEnvH witConfigH rfl⟩

/-- Specification-side notion of substring occurrence: `needle` appears
contiguously inside `hay`. -/
def OccursIn (needle hay : List Char) : Prop :=
  ∃ pre post, hay = pre ++ needle ++ post

theorem pyPrefixL_iff (n : List Char) : ∀ h : List Char,
    (pyPrefixL n h = true ↔ ∃ t, h = n ++ t) := by
  induction n with
  | nil => intro h; simp [pyPrefixL]
  | cons a n ih =>
    intro h
    cases h with
    | nil => simp [pyPrefixL]
    | cons b u =>
      simp only [pyPrefixL, Bool.and_eq_true, beq_iff_eq]
      rw [ih u]
      constructor
      · rintro ⟨rfl, t, rfl⟩
        exact ⟨t, rfl⟩
      · rintro ⟨t, ht⟩
        injection ht with h1 h2
        exact ⟨h1.symm, t, h2⟩

theorem pyContainsL_iff (n : List Char) : ∀ h : List Char,
    (pyContainsL n h = true ↔ OccursIn n h) := by
  intro h
  induction h with
  | nil =>
    simp only [pyContainsL, List.isEmpty_iff]
    constructor
    · intro hn
      exact ⟨[], [], by simp [hn]⟩
    · rintro ⟨pre, post, hp⟩
      have h2 := hp.symm
      simp only [List.append_eq_nil] at h2
      tauto
  | cons b u ih =>
    simp only [pyContainsL, Bool.or_eq_true]
    rw [pyPrefixL_iff, ih]
    constructor
    · rintro (⟨t, ht⟩ | ⟨pre, post, hp⟩)
      · exact ⟨[], t, by simp [ht]⟩
      · exact ⟨b :: pre, post, by simp [hp]⟩
    · rintro ⟨pre, post, hp⟩
      cases pre with
      | nil => exact Or.inl ⟨post, by simpa using hp⟩
      | cons x pre2 =>
        injection hp with h1 h2
        exact Or.inr ⟨pre2, post, h2⟩

/-- C8: `parse_drop_date` is total (every exception is caught) and returns
a date exactly when the input contains `"Dropped on"` and the remainder —
the input with every `"Dropped on "` occurrence removed and whitespace
stripped — parses in `%B %d, %Y` format; every other input yields `None`. -/
theorem spec_C8 (s : String) :
    (parse_drop_date s).isSome = true ↔
      (OccursIn ("Dropped on").data s.data ∧
        (strptimeBDY (pyStrip (pyReplace s "Dropped on " ""))).isSome = true) := by
  unfold parse_drop_date
  by_cases hc : pyContains s "Dropped on" = true
  · rw [if_pos hc]
    have ho : OccursIn ("Dropped on").data s.data := (pyContainsL_iff _ _).1 hc
    simp [ho]
  · rw [if_neg hc]
    have ho : ¬ OccursIn ("Dropped on").data s.data :=
      fun h => hc ((pyContainsL_iff _ _).2 h)
    simp [ho]
